import Mathlib

set_option maxRecDepth 100000

/-
Shallow embedding of the budget application's core state logic
(`src/index.tsx`): recurring-template CRUD with propagation across the
month-keyed timeline, category registry operations, the persisted-data
migration, and state initialization.

Modelling conventions:
* JS numbers used as ids are modelled as `Nat`; monetary amounts as `Int`
  (no claim performs arithmetic on them, they are only copied and compared).
* `Date.now() + Math.random()` fresh-id generation is modelled by explicit
  fresh-id parameters (`fid`), since only uniqueness/linkage matters.
* The JS object `monthlyData` keyed by `YYYY-MM` strings is modelled as an
  association list `List (MonthKey × MonthlyData)`; `Object.keys(...).forEach`
  with a per-key mutation becomes a `List.map` over the entries.
* JS string comparison `monthKey >= currentMonthKey` is code-unit
  lexicographic order, embedded as the executable `keyLe` on the underlying
  character lists.
* `Array.prototype.sort(cmp)` (used with `localeCompare`) is modelled as an
  insertion sort parameterized by the boolean comparator `lc` ("localeCompare
  ≤ 0"); JS guarantees only that the result is sorted w.r.t. a consistent
  comparator, which the insertion sort satisfies.
* `findIndex` followed by an in-place update of the found element is
  modelled by `updateFirst`.
* `localStorage.getItem` results are `Option String`; `JSON.parse` of each
  blob is an abstract parser `String → Option α` (failure = exception).
* `String.prototype.toLowerCase` and `trim` are modelled from ECMA-262 with
  Unicode 14.0 data: the per-character lowercase mapping (plus the
  `Final_Sigma` context rule and the `İ` expansion) and the
  WhiteSpace/LineTerminator set. The `Word_Break` members of
  `Case_Ignorable` are the standard punctuation list.
-/

namespace Budget

/-- A planned income row; recurring templates for incomes use the same shape
with the optional fields left at their defaults (mirrors the TS type
`IncomeSource`). -/
structure IncomeSource where
  id : Nat
  description : String
  amount : Int
  isRecurring : Bool := false
  recurringId : Option Nat := none
deriving DecidableEq

/-- A planned expense row / recurring expense template (TS type `Expense`). -/
structure Expense where
  id : Nat
  description : String
  amount : Int
  category : String
  isRecurring : Bool := false
  recurringId : Option Nat := none
deriving DecidableEq

/-- An actually-spent expense record (TS type `RealExpense`). -/
structure RealExpense where
  id : Nat
  description : String
  amount : Int
  date : String
  linkedCategory : String
deriving DecidableEq

/-- A category of the registry (TS type `Category`). -/
structure Category where
  name : String
  color : String
deriving DecidableEq

/-- One month's ledger (TS type `MonthlyData`). -/
structure MonthlyData where
  realIncome : List IncomeSource
  plannedExpenses : List Expense
  realExpenses : List RealExpense
deriving DecidableEq

/-- Month keys are zero-padded `YYYY-MM` strings. -/
abbrev MonthKey := String

/-- The lazily-materialized timeline `monthlyData`, as an association list. -/
abbrev Timeline := List (MonthKey × MonthlyData)

/-- The global (non-monthly) mutable state `globalState`. -/
structure GlobalState where
  categories : List Category
  recurringIncomes : List IncomeSource
  recurringExpenses : List Expense
deriving DecidableEq

/-- Lexicographic order on character lists: the semantics of JavaScript's
`>=` on strings (code-unit comparison; identical to codepoint comparison on
the ASCII month keys). -/
def charListLe : List Char → List Char → Bool
  | [], _ => true
  | _ :: _, [] => false
  | a :: as, b :: bs => if a = b then charListLe as bs else decide (a < b)

/-- `a <= b` on month-key strings, as JavaScript compares them. -/
def keyLe (a b : MonthKey) : Bool :=
  charListLe a.data b.data

/-- The ECMA-262 `WhiteSpace` and `LineTerminator` character set stripped by
`String.prototype.trim`: TAB, LF, VT, FF, CR, the Unicode 14.0 `Zs`
category (SPACE, NBSP, U+1680, U+2000..U+200A, U+202F, U+205F, U+3000),
LS, PS and ZWNBSP. -/
def jsWhitespace (c : Char) : Bool :=
  let n := c.toNat
  n = 0x9 || n = 0xA || n = 0xB || n = 0xC || n = 0xD || n = 0x20 || n = 0xA0 ||
  n = 0x1680 || (decide (0x2000 ≤ n) && decide (n ≤ 0x200A)) || n = 0x2028 ||
  n = 0x2029 || n = 0x202F || n = 0x205F || n = 0x3000 || n = 0xFEFF

/-- JavaScript `String.prototype.trim`: strip the `jsWhitespace` characters
from both ends. -/
def trimStr (s : String) : String :=
  String.mk (((s.data.dropWhile jsWhitespace).reverse.dropWhile jsWhitespace).reverse)

/-- The Unicode 14.0 per-character full lowercase mapping, as run-length
records `(first, last, stride, delta)`: a codepoint `n` in `[first, last]`
with `(n - first) % stride = 0` lowercases to `n + delta`. Together with the
two context-free exceptions handled in `jsLowerChar` and the `Final_Sigma`
rule handled in `lowerListAux`, this is the Default Case Conversion
`toLowercase` used by `String.prototype.toLowerCase`. -/
def lowerRuns : List (Nat × Nat × Nat × Int) := [
    (0x41, 0x5A, 1, 32), (0xC0, 0xD6, 1, 32), (0xD8, 0xDE, 1, 32),
    (0x100, 0x12E, 2, 1), (0x132, 0x136, 2, 1), (0x139, 0x147, 2, 1),
    (0x14A, 0x176, 2, 1), (0x178, 0x178, 1, -121), (0x179, 0x17D, 2, 1),
    (0x181, 0x181, 1, 210), (0x182, 0x184, 2, 1), (0x186, 0x186, 1, 206),
    (0x187, 0x187, 1, 1), (0x189, 0x18A, 1, 205), (0x18B, 0x18B, 1, 1),
    (0x18E, 0x18E, 1, 79), (0x18F, 0x18F, 1, 202), (0x190, 0x190, 1, 203),
    (0x191, 0x191, 1, 1), (0x193, 0x193, 1, 205), (0x194, 0x194, 1, 207),
    (0x196, 0x196, 1, 211), (0x197, 0x197, 1, 209), (0x198, 0x198, 1, 1),
    (0x19C, 0x19C, 1, 211), (0x19D, 0x19D, 1, 213), (0x19F, 0x19F, 1, 214),
    (0x1A0, 0x1A4, 2, 1), (0x1A6, 0x1A6, 1, 218), (0x1A7, 0x1A7, 1, 1),
    (0x1A9, 0x1A9, 1, 218), (0x1AC, 0x1AC, 1, 1), (0x1AE, 0x1AE, 1, 218),
    (0x1AF, 0x1AF, 1, 1), (0x1B1, 0x1B2, 1, 217), (0x1B3, 0x1B5, 2, 1),
    (0x1B7, 0x1B7, 1, 219), (0x1B8, 0x1B8, 1, 1), (0x1BC, 0x1BC, 1, 1),
    (0x1C4, 0x1C4, 1, 2), (0x1C5, 0x1C5, 1, 1), (0x1C7, 0x1C7, 1, 2),
    (0x1C8, 0x1C8, 1, 1), (0x1CA, 0x1CA, 1, 2), (0x1CB, 0x1DB, 2, 1),
    (0x1DE, 0x1EE, 2, 1), (0x1F1, 0x1F1, 1, 2), (0x1F2, 0x1F4, 2, 1),
    (0x1F6, 0x1F6, 1, -97), (0x1F7, 0x1F7, 1, -56), (0x1F8, 0x21E, 2, 1),
    (0x220, 0x220, 1, -130), (0x222, 0x232, 2, 1), (0x23A, 0x23A, 1, 10795),
    (0x23B, 0x23B, 1, 1), (0x23D, 0x23D, 1, -163), (0x23E, 0x23E, 1, 10792),
    (0x241, 0x241, 1, 1), (0x243, 0x243, 1, -195), (0x244, 0x244, 1, 69),
    (0x245, 0x245, 1, 71), (0x246, 0x24E, 2, 1), (0x370, 0x372, 2, 1),
    (0x376, 0x376, 1, 1), (0x37F, 0x37F, 1, 116), (0x386, 0x386, 1, 38),
    (0x388, 0x38A, 1, 37), (0x38C, 0x38C, 1, 64), (0x38E, 0x38F, 1, 63),
    (0x391, 0x3A1, 1, 32), (0x3A3, 0x3AB, 1, 32), (0x3CF, 0x3CF, 1, 8),
    (0x3D8, 0x3EE, 2, 1), (0x3F4, 0x3F4, 1, -60), (0x3F7, 0x3F7, 1, 1),
    (0x3F9, 0x3F9, 1, -7), (0x3FA, 0x3FA, 1, 1), (0x3FD, 0x3FF, 1, -130),
    (0x400, 0x40F, 1, 80), (0x410, 0x42F, 1, 32), (0x460, 0x480, 2, 1),
    (0x48A, 0x4BE, 2, 1), (0x4C0, 0x4C0, 1, 15), (0x4C1, 0x4CD, 2, 1),
    (0x4D0, 0x52E, 2, 1), (0x531, 0x556, 1, 48), (0x10A0, 0x10C5, 1, 7264),
    (0x10C7, 0x10C7, 1, 7264), (0x10CD, 0x10CD, 1, 7264), (0x13A0, 0x13EF, 1, 38864),
    (0x13F0, 0x13F5, 1, 8), (0x1C90, 0x1CBA, 1, -3008), (0x1CBD, 0x1CBF, 1, -3008),
    (0x1E00, 0x1E94, 2, 1), (0x1E9E, 0x1E9E, 1, -7615), (0x1EA0, 0x1EFE, 2, 1),
    (0x1F08, 0x1F0F, 1, -8), (0x1F18, 0x1F1D, 1, -8), (0x1F28, 0x1F2F, 1, -8),
    (0x1F38, 0x1F3F, 1, -8), (0x1F48, 0x1F4D, 1, -8), (0x1F59, 0x1F5F, 2, -8),
    (0x1F68, 0x1F6F, 1, -8), (0x1F88, 0x1F8F, 1, -8), (0x1F98, 0x1F9F, 1, -8),
    (0x1FA8, 0x1FAF, 1, -8), (0x1FB8, 0x1FB9, 1, -8), (0x1FBA, 0x1FBB, 1, -74),
    (0x1FBC, 0x1FBC, 1, -9), (0x1FC8, 0x1FCB, 1, -86), (0x1FCC, 0x1FCC, 1, -9),
    (0x1FD8, 0x1FD9, 1, -8), (0x1FDA, 0x1FDB, 1, -100), (0x1FE8, 0x1FE9, 1, -8),
    (0x1FEA, 0x1FEB, 1, -112), (0x1FEC, 0x1FEC, 1, -7), (0x1FF8, 0x1FF9, 1, -128),
    (0x1FFA, 0x1FFB, 1, -126), (0x1FFC, 0x1FFC, 1, -9), (0x2126, 0x2126, 1, -7517),
    (0x212A, 0x212A, 1, -8383), (0x212B, 0x212B, 1, -8262), (0x2132, 0x2132, 1, 28),
    (0x2160, 0x216F, 1, 16), (0x2183, 0x2183, 1, 1), (0x24B6, 0x24CF, 1, 26),
    (0x2C00, 0x2C2F, 1, 48), (0x2C60, 0x2C60, 1, 1), (0x2C62, 0x2C62, 1, -10743),
    (0x2C63, 0x2C63, 1, -3814), (0x2C64, 0x2C64, 1, -10727), (0x2C67, 0x2C6B, 2, 1),
    (0x2C6D, 0x2C6D, 1, -10780), (0x2C6E, 0x2C6E, 1, -10749), (0x2C6F, 0x2C6F, 1, -10783),
    (0x2C70, 0x2C70, 1, -10782), (0x2C72, 0x2C72, 1, 1), (0x2C75, 0x2C75, 1, 1),
    (0x2C7E, 0x2C7F, 1, -10815), (0x2C80, 0x2CE2, 2, 1), (0x2CEB, 0x2CED, 2, 1),
    (0x2CF2, 0x2CF2, 1, 1), (0xA640, 0xA66C, 2, 1), (0xA680, 0xA69A, 2, 1),
    (0xA722, 0xA72E, 2, 1), (0xA732, 0xA76E, 2, 1), (0xA779, 0xA77B, 2, 1),
    (0xA77D, 0xA77D, 1, -35332), (0xA77E, 0xA786, 2, 1), (0xA78B, 0xA78B, 1, 1),
    (0xA78D, 0xA78D, 1, -42280), (0xA790, 0xA792, 2, 1), (0xA796, 0xA7A8, 2, 1),
    (0xA7AA, 0xA7AA, 1, -42308), (0xA7AB, 0xA7AB, 1, -42319), (0xA7AC, 0xA7AC, 1, -42315),
    (0xA7AD, 0xA7AD, 1, -42305), (0xA7AE, 0xA7AE, 1, -42308), (0xA7B0, 0xA7B0, 1, -42258),
    (0xA7B1, 0xA7B1, 1, -42282), (0xA7B2, 0xA7B2, 1, -42261), (0xA7B3, 0xA7B3, 1, 928),
    (0xA7B4, 0xA7C2, 2, 1), (0xA7C4, 0xA7C4, 1, -48), (0xA7C5, 0xA7C5, 1, -42307),
    (0xA7C6, 0xA7C6, 1, -35384), (0xA7C7, 0xA7C9, 2, 1), (0xA7D0, 0xA7D0, 1, 1),
    (0xA7D6, 0xA7D8, 2, 1), (0xA7F5, 0xA7F5, 1, 1), (0xFF21, 0xFF3A, 1, 32),
    (0x10400, 0x10427, 1, 40), (0x104B0, 0x104D3, 1, 40), (0x10570, 0x1057A, 1, 39),
    (0x1057C, 0x1058A, 1, 39), (0x1058C, 0x10592, 1, 39), (0x10594, 0x10595, 1, 39),
    (0x10C80, 0x10CB2, 1, 64), (0x118A0, 0x118BF, 1, 32), (0x16E40, 0x16E5F, 1, 32),
    (0x1E900, 0x1E921, 1, 34) ]

/-- The Unicode 14.0 `Cased` property (= derived `Lowercase` or `Uppercase`
or General_Category `Lt`), as inclusive codepoint ranges; context for the
`Final_Sigma` condition. -/
def casedRanges : List (Nat × Nat) := [
    (0x41, 0x5A), (0x61, 0x7A), (0xAA, 0xAA), (0xB5, 0xB5), (0xBA, 0xBA),
    (0xC0, 0xD6), (0xD8, 0xF6), (0xF8, 0x1BA), (0x1BC, 0x1BF), (0x1C4, 0x293),
    (0x295, 0x2B8), (0x2C0, 0x2C1), (0x2E0, 0x2E4), (0x345, 0x345), (0x370, 0x373),
    (0x376, 0x377), (0x37A, 0x37D), (0x37F, 0x37F), (0x386, 0x386), (0x388, 0x38A),
    (0x38C, 0x38C), (0x38E, 0x3A1), (0x3A3, 0x3F5), (0x3F7, 0x481), (0x48A, 0x52F),
    (0x531, 0x556), (0x560, 0x588), (0x10A0, 0x10C5), (0x10C7, 0x10C7), (0x10CD, 0x10CD),
    (0x10D0, 0x10FA), (0x10FD, 0x10FF), (0x13A0, 0x13F5), (0x13F8, 0x13FD), (0x1C80, 0x1C88),
    (0x1C90, 0x1CBA), (0x1CBD, 0x1CBF), (0x1D00, 0x1DBF), (0x1E00, 0x1F15), (0x1F18, 0x1F1D),
    (0x1F20, 0x1F45), (0x1F48, 0x1F4D), (0x1F50, 0x1F57), (0x1F59, 0x1F59), (0x1F5B, 0x1F5B),
    (0x1F5D, 0x1F5D), (0x1F5F, 0x1F7D), (0x1F80, 0x1FB4), (0x1FB6, 0x1FBC), (0x1FBE, 0x1FBE),
    (0x1FC2, 0x1FC4), (0x1FC6, 0x1FCC), (0x1FD0, 0x1FD3), (0x1FD6, 0x1FDB), (0x1FE0, 0x1FEC),
    (0x1FF2, 0x1FF4), (0x1FF6, 0x1FFC), (0x2071, 0x2071), (0x207F, 0x207F), (0x2090, 0x209C),
    (0x2102, 0x2102), (0x2107, 0x2107), (0x210A, 0x2113), (0x2115, 0x2115), (0x2119, 0x211D),
    (0x2124, 0x2124), (0x2126, 0x2126), (0x2128, 0x2128), (0x212A, 0x212D), (0x212F, 0x2134),
    (0x2139, 0x2139), (0x213C, 0x213F), (0x2145, 0x2149), (0x214E, 0x214E), (0x2160, 0x217F),
    (0x2183, 0x2184), (0x24B6, 0x24E9), (0x2C00, 0x2CE4), (0x2CEB, 0x2CEE), (0x2CF2, 0x2CF3),
    (0x2D00, 0x2D25), (0x2D27, 0x2D27), (0x2D2D, 0x2D2D), (0xA640, 0xA66D), (0xA680, 0xA69D),
    (0xA722, 0xA787), (0xA78B, 0xA78E), (0xA790, 0xA7CA), (0xA7D0, 0xA7D1), (0xA7D3, 0xA7D3),
    (0xA7D5, 0xA7D9), (0xA7F5, 0xA7F6), (0xA7F8, 0xA7FA), (0xAB30, 0xAB5A), (0xAB5C, 0xAB68),
    (0xAB70, 0xABBF), (0xFB00, 0xFB06), (0xFB13, 0xFB17), (0xFF21, 0xFF3A), (0xFF41, 0xFF5A),
    (0x10400, 0x1044F), (0x104B0, 0x104D3), (0x104D8, 0x104FB), (0x10570, 0x1057A), (0x1057C, 0x1058A),
    (0x1058C, 0x10592), (0x10594, 0x10595), (0x10597, 0x105A1), (0x105A3, 0x105B1), (0x105B3, 0x105B9),
    (0x105BB, 0x105BC), (0x10780, 0x10780), (0x10783, 0x10785), (0x10787, 0x107B0), (0x107B2, 0x107BA),
    (0x10C80, 0x10CB2), (0x10CC0, 0x10CF2), (0x118A0, 0x118DF), (0x16E40, 0x16E7F), (0x1D400, 0x1D454),
    (0x1D456, 0x1D49C), (0x1D49E, 0x1D49F), (0x1D4A2, 0x1D4A2), (0x1D4A5, 0x1D4A6), (0x1D4A9, 0x1D4AC),
    (0x1D4AE, 0x1D4B9), (0x1D4BB, 0x1D4BB), (0x1D4BD, 0x1D4C3), (0x1D4C5, 0x1D505), (0x1D507, 0x1D50A),
    (0x1D50D, 0x1D514), (0x1D516, 0x1D51C), (0x1D51E, 0x1D539), (0x1D53B, 0x1D53E), (0x1D540, 0x1D544),
    (0x1D546, 0x1D546), (0x1D54A, 0x1D550), (0x1D552, 0x1D6A5), (0x1D6A8, 0x1D6C0), (0x1D6C2, 0x1D6DA),
    (0x1D6DC, 0x1D6FA), (0x1D6FC, 0x1D714), (0x1D716, 0x1D734), (0x1D736, 0x1D74E), (0x1D750, 0x1D76E),
    (0x1D770, 0x1D788), (0x1D78A, 0x1D7A8), (0x1D7AA, 0x1D7C2), (0x1D7C4, 0x1D7CB), (0x1DF00, 0x1DF09),
    (0x1DF0B, 0x1DF1E), (0x1E900, 0x1E943), (0x1F130, 0x1F149), (0x1F150, 0x1F169), (0x1F170, 0x1F189) ]

/-- The Unicode 14.0 `Case_Ignorable` property, as inclusive codepoint
ranges (General_Category `Mn`/`Me`/`Cf`/`Lm`/`Sk`, plus the
`Word_Break = MidLetter`/`MidNumLet`/`Single_Quote` punctuation). -/
def caseIgnorableRanges : List (Nat × Nat) := [
    (0x27, 0x27), (0x2E, 0x2E), (0x3A, 0x3A), (0x5E, 0x5E), (0x60, 0x60),
    (0xA8, 0xA8), (0xAD, 0xAD), (0xAF, 0xAF), (0xB4, 0xB4), (0xB7, 0xB8),
    (0x2B0, 0x36F), (0x374, 0x375), (0x37A, 0x37A), (0x384, 0x385), (0x387, 0x387),
    (0x483, 0x489), (0x559, 0x559), (0x55F, 0x55F), (0x591, 0x5BD), (0x5BF, 0x5BF),
    (0x5C1, 0x5C2), (0x5C4, 0x5C5), (0x5C7, 0x5C7), (0x5F4, 0x5F4), (0x600, 0x605),
    (0x610, 0x61A), (0x61C, 0x61C), (0x640, 0x640), (0x64B, 0x65F), (0x670, 0x670),
    (0x6D6, 0x6DD), (0x6DF, 0x6E8), (0x6EA, 0x6ED), (0x70F, 0x70F), (0x711, 0x711),
    (0x730, 0x74A), (0x7A6, 0x7B0), (0x7EB, 0x7F5), (0x7FA, 0x7FA), (0x7FD, 0x7FD),
    (0x816, 0x82D), (0x859, 0x85B), (0x888, 0x888), (0x890, 0x891), (0x898, 0x89F),
    (0x8C9, 0x902), (0x93A, 0x93A), (0x93C, 0x93C), (0x941, 0x948), (0x94D, 0x94D),
    (0x951, 0x957), (0x962, 0x963), (0x971, 0x971), (0x981, 0x981), (0x9BC, 0x9BC),
    (0x9C1, 0x9C4), (0x9CD, 0x9CD), (0x9E2, 0x9E3), (0x9FE, 0x9FE), (0xA01, 0xA02),
    (0xA3C, 0xA3C), (0xA41, 0xA42), (0xA47, 0xA48), (0xA4B, 0xA4D), (0xA51, 0xA51),
    (0xA70, 0xA71), (0xA75, 0xA75), (0xA81, 0xA82), (0xABC, 0xABC), (0xAC1, 0xAC5),
    (0xAC7, 0xAC8), (0xACD, 0xACD), (0xAE2, 0xAE3), (0xAFA, 0xAFF), (0xB01, 0xB01),
    (0xB3C, 0xB3C), (0xB3F, 0xB3F), (0xB41, 0xB44), (0xB4D, 0xB4D), (0xB55, 0xB56),
    (0xB62, 0xB63), (0xB82, 0xB82), (0xBC0, 0xBC0), (0xBCD, 0xBCD), (0xC00, 0xC00),
    (0xC04, 0xC04), (0xC3C, 0xC3C), (0xC3E, 0xC40), (0xC46, 0xC48), (0xC4A, 0xC4D),
    (0xC55, 0xC56), (0xC62, 0xC63), (0xC81, 0xC81), (0xCBC, 0xCBC), (0xCBF, 0xCBF),
    (0xCC6, 0xCC6), (0xCCC, 0xCCD), (0xCE2, 0xCE3), (0xD00, 0xD01), (0xD3B, 0xD3C),
    (0xD41, 0xD44), (0xD4D, 0xD4D), (0xD62, 0xD63), (0xD81, 0xD81), (0xDCA, 0xDCA),
    (0xDD2, 0xDD4), (0xDD6, 0xDD6), (0xE31, 0xE31), (0xE34, 0xE3A), (0xE46, 0xE4E),
    (0xEB1, 0xEB1), (0xEB4, 0xEBC), (0xEC6, 0xEC6), (0xEC8, 0xECD), (0xF18, 0xF19),
    (0xF35, 0xF35), (0xF37, 0xF37), (0xF39, 0xF39), (0xF71, 0xF7E), (0xF80, 0xF84),
    (0xF86, 0xF87), (0xF8D, 0xF97), (0xF99, 0xFBC), (0xFC6, 0xFC6), (0x102D, 0x1030),
    (0x1032, 0x1037), (0x1039, 0x103A), (0x103D, 0x103E), (0x1058, 0x1059), (0x105E, 0x1060),
    (0x1071, 0x1074), (0x1082, 0x1082), (0x1085, 0x1086), (0x108D, 0x108D), (0x109D, 0x109D),
    (0x10FC, 0x10FC), (0x135D, 0x135F), (0x1712, 0x1714), (0x1732, 0x1733), (0x1752, 0x1753),
    (0x1772, 0x1773), (0x17B4, 0x17B5), (0x17B7, 0x17BD), (0x17C6, 0x17C6), (0x17C9, 0x17D3),
    (0x17D7, 0x17D7), (0x17DD, 0x17DD), (0x180B, 0x180F), (0x1843, 0x1843), (0x1885, 0x1886),
    (0x18A9, 0x18A9), (0x1920, 0x1922), (0x1927, 0x1928), (0x1932, 0x1932), (0x1939, 0x193B),
    (0x1A17, 0x1A18), (0x1A1B, 0x1A1B), (0x1A56, 0x1A56), (0x1A58, 0x1A5E), (0x1A60, 0x1A60),
    (0x1A62, 0x1A62), (0x1A65, 0x1A6C), (0x1A73, 0x1A7C), (0x1A7F, 0x1A7F), (0x1AA7, 0x1AA7),
    (0x1AB0, 0x1ACE), (0x1B00, 0x1B03), (0x1B34, 0x1B34), (0x1B36, 0x1B3A), (0x1B3C, 0x1B3C),
    (0x1B42, 0x1B42), (0x1B6B, 0x1B73), (0x1B80, 0x1B81), (0x1BA2, 0x1BA5), (0x1BA8, 0x1BA9),
    (0x1BAB, 0x1BAD), (0x1BE6, 0x1BE6), (0x1BE8, 0x1BE9), (0x1BED, 0x1BED), (0x1BEF, 0x1BF1),
    (0x1C2C, 0x1C33), (0x1C36, 0x1C37), (0x1C78, 0x1C7D), (0x1CD0, 0x1CD2), (0x1CD4, 0x1CE0),
    (0x1CE2, 0x1CE8), (0x1CED, 0x1CED), (0x1CF4, 0x1CF4), (0x1CF8, 0x1CF9), (0x1D2C, 0x1D6A),
    (0x1D78, 0x1D78), (0x1D9B, 0x1DFF), (0x1FBD, 0x1FBD), (0x1FBF, 0x1FC1), (0x1FCD, 0x1FCF),
    (0x1FDD, 0x1FDF), (0x1FED, 0x1FEF), (0x1FFD, 0x1FFE), (0x200B, 0x200F), (0x2018, 0x2019),
    (0x2024, 0x2024), (0x2027, 0x2027), (0x202A, 0x202E), (0x2060, 0x2064), (0x2066, 0x206F),
    (0x2071, 0x2071), (0x207F, 0x207F), (0x2090, 0x209C), (0x20D0, 0x20F0), (0x2C7C, 0x2C7D),
    (0x2CEF, 0x2CF1), (0x2D6F, 0x2D6F), (0x2D7F, 0x2D7F), (0x2DE0, 0x2DFF), (0x2E2F, 0x2E2F),
    (0x3005, 0x3005), (0x302A, 0x302D), (0x3031, 0x3035), (0x303B, 0x303B), (0x3099, 0x309E),
    (0x30FC, 0x30FE), (0xA015, 0xA015), (0xA4F8, 0xA4FD), (0xA60C, 0xA60C), (0xA66F, 0xA672),
    (0xA674, 0xA67D), (0xA67F, 0xA67F), (0xA69C, 0xA69F), (0xA6F0, 0xA6F1), (0xA700, 0xA721),
    (0xA770, 0xA770), (0xA788, 0xA78A), (0xA7F2, 0xA7F4), (0xA7F8, 0xA7F9), (0xA802, 0xA802),
    (0xA806, 0xA806), (0xA80B, 0xA80B), (0xA825, 0xA826), (0xA82C, 0xA82C), (0xA8C4, 0xA8C5),
    (0xA8E0, 0xA8F1), (0xA8FF, 0xA8FF), (0xA926, 0xA92D), (0xA947, 0xA951), (0xA980, 0xA982),
    (0xA9B3, 0xA9B3), (0xA9B6, 0xA9B9), (0xA9BC, 0xA9BD), (0xA9CF, 0xA9CF), (0xA9E5, 0xA9E6),
    (0xAA29, 0xAA2E), (0xAA31, 0xAA32), (0xAA35, 0xAA36), (0xAA43, 0xAA43), (0xAA4C, 0xAA4C),
    (0xAA70, 0xAA70), (0xAA7C, 0xAA7C), (0xAAB0, 0xAAB0), (0xAAB2, 0xAAB4), (0xAAB7, 0xAAB8),
    (0xAABE, 0xAABF), (0xAAC1, 0xAAC1), (0xAADD, 0xAADD), (0xAAEC, 0xAAED), (0xAAF3, 0xAAF4),
    (0xAAF6, 0xAAF6), (0xAB5B, 0xAB5F), (0xAB69, 0xAB6B), (0xABE5, 0xABE5), (0xABE8, 0xABE8),
    (0xABED, 0xABED), (0xFB1E, 0xFB1E), (0xFBB2, 0xFBC2), (0xFE00, 0xFE0F), (0xFE13, 0xFE13),
    (0xFE20, 0xFE2F), (0xFE52, 0xFE52), (0xFE55, 0xFE55), (0xFEFF, 0xFEFF), (0xFF07, 0xFF07),
    (0xFF0E, 0xFF0E), (0xFF1A, 0xFF1A), (0xFF3E, 0xFF3E), (0xFF40, 0xFF40), (0xFF70, 0xFF70),
    (0xFF9E, 0xFF9F), (0xFFE3, 0xFFE3), (0xFFF9, 0xFFFB), (0x101FD, 0x101FD), (0x102E0, 0x102E0),
    (0x10376, 0x1037A), (0x10780, 0x10785), (0x10787, 0x107B0), (0x107B2, 0x107BA), (0x10A01, 0x10A03),
    (0x10A05, 0x10A06), (0x10A0C, 0x10A0F), (0x10A38, 0x10A3A), (0x10A3F, 0x10A3F), (0x10AE5, 0x10AE6),
    (0x10D24, 0x10D27), (0x10EAB, 0x10EAC), (0x10F46, 0x10F50), (0x10F82, 0x10F85), (0x11001, 0x11001),
    (0x11038, 0x11046), (0x11070, 0x11070), (0x11073, 0x11074), (0x1107F, 0x11081), (0x110B3, 0x110B6),
    (0x110B9, 0x110BA), (0x110BD, 0x110BD), (0x110C2, 0x110C2), (0x110CD, 0x110CD), (0x11100, 0x11102),
    (0x11127, 0x1112B), (0x1112D, 0x11134), (0x11173, 0x11173), (0x11180, 0x11181), (0x111B6, 0x111BE),
    (0x111C9, 0x111CC), (0x111CF, 0x111CF), (0x1122F, 0x11231), (0x11234, 0x11234), (0x11236, 0x11237),
    (0x1123E, 0x1123E), (0x112DF, 0x112DF), (0x112E3, 0x112EA), (0x11300, 0x11301), (0x1133B, 0x1133C),
    (0x11340, 0x11340), (0x11366, 0x1136C), (0x11370, 0x11374), (0x11438, 0x1143F), (0x11442, 0x11444),
    (0x11446, 0x11446), (0x1145E, 0x1145E), (0x114B3, 0x114B8), (0x114BA, 0x114BA), (0x114BF, 0x114C0),
    (0x114C2, 0x114C3), (0x115B2, 0x115B5), (0x115BC, 0x115BD), (0x115BF, 0x115C0), (0x115DC, 0x115DD),
    (0x11633, 0x1163A), (0x1163D, 0x1163D), (0x1163F, 0x11640), (0x116AB, 0x116AB), (0x116AD, 0x116AD),
    (0x116B0, 0x116B5), (0x116B7, 0x116B7), (0x1171D, 0x1171F), (0x11722, 0x11725), (0x11727, 0x1172B),
    (0x1182F, 0x11837), (0x11839, 0x1183A), (0x1193B, 0x1193C), (0x1193E, 0x1193E), (0x11943, 0x11943),
    (0x119D4, 0x119D7), (0x119DA, 0x119DB), (0x119E0, 0x119E0), (0x11A01, 0x11A0A), (0x11A33, 0x11A38),
    (0x11A3B, 0x11A3E), (0x11A47, 0x11A47), (0x11A51, 0x11A56), (0x11A59, 0x11A5B), (0x11A8A, 0x11A96),
    (0x11A98, 0x11A99), (0x11C30, 0x11C36), (0x11C38, 0x11C3D), (0x11C3F, 0x11C3F), (0x11C92, 0x11CA7),
    (0x11CAA, 0x11CB0), (0x11CB2, 0x11CB3), (0x11CB5, 0x11CB6), (0x11D31, 0x11D36), (0x11D3A, 0x11D3A),
    (0x11D3C, 0x11D3D), (0x11D3F, 0x11D45), (0x11D47, 0x11D47), (0x11D90, 0x11D91), (0x11D95, 0x11D95),
    (0x11D97, 0x11D97), (0x11EF3, 0x11EF4), (0x13430, 0x13438), (0x16AF0, 0x16AF4), (0x16B30, 0x16B36),
    (0x16B40, 0x16B43), (0x16F4F, 0x16F4F), (0x16F8F, 0x16F9F), (0x16FE0, 0x16FE1), (0x16FE3, 0x16FE4),
    (0x1AFF0, 0x1AFF3), (0x1AFF5, 0x1AFFB), (0x1AFFD, 0x1AFFE), (0x1BC9D, 0x1BC9E), (0x1BCA0, 0x1BCA3),
    (0x1CF00, 0x1CF2D), (0x1CF30, 0x1CF46), (0x1D167, 0x1D169), (0x1D173, 0x1D182), (0x1D185, 0x1D18B),
    (0x1D1AA, 0x1D1AD), (0x1D242, 0x1D244), (0x1DA00, 0x1DA36), (0x1DA3B, 0x1DA6C), (0x1DA75, 0x1DA75),
    (0x1DA84, 0x1DA84), (0x1DA9B, 0x1DA9F), (0x1DAA1, 0x1DAAF), (0x1E000, 0x1E006), (0x1E008, 0x1E018),
    (0x1E01B, 0x1E021), (0x1E023, 0x1E024), (0x1E026, 0x1E02A), (0x1E130, 0x1E13D), (0x1E2AE, 0x1E2AE),
    (0x1E2EC, 0x1E2EF), (0x1E8D0, 0x1E8D6), (0x1E944, 0x1E94B), (0x1F3FB, 0x1F3FF), (0xE0001, 0xE0001),
    (0xE0020, 0xE007F), (0xE0100, 0xE01EF) ]

/-- Membership of a codepoint in a list of inclusive ranges. -/
def inRanges (rs : List (Nat × Nat)) (n : Nat) : Bool :=
  rs.any (fun r => decide (r.1 ≤ n) && decide (n ≤ r.2))

/-- The `Cased` property of a character. -/
def isCasedChar (c : Char) : Bool :=
  inRanges casedRanges c.toNat

/-- The `Case_Ignorable` property of a character. -/
def isCaseIgnorable (c : Char) : Bool :=
  inRanges caseIgnorableRanges c.toNat

/-- Context-free lowercase of one character: LATIN CAPITAL LETTER I WITH DOT
ABOVE expands to `i` + COMBINING DOT ABOVE (the one multi-character
lowercase mapping); every other character maps through `lowerRuns` or to
itself. -/
def jsLowerChar (c : Char) : List Char :=
  let n := c.toNat
  if n = 0x130 then [Char.ofNat 0x69, Char.ofNat 0x307] else
  match lowerRuns.find? (fun r => decide (r.1 ≤ n) && decide (n ≤ r.2.1) &&
      decide ((n - r.1) % r.2.2.1 = 0)) with
  | some r => [Char.ofNat (Int.toNat (Int.ofNat n + r.2.2.2))]
  | none => [c]

/-- Is the closest non-`Case_Ignorable` character in the given direction
`Cased`? (Applied to the reversed prefix for the Before(C) half of the
`Final_Sigma` condition and to the suffix for the After(C) half.) -/
def nearestIsCased : List Char → Bool
  | [] => false
  | c :: rest => if isCaseIgnorable c then nearestIsCased rest else isCasedChar c

/-- Lowercase a character list: GREEK CAPITAL LETTER SIGMA becomes FINAL
SIGMA when the `Final_Sigma` condition holds in the original string (first
argument: the already-seen characters, reversed); everything else maps
through `jsLowerChar`. -/
def lowerListAux : List Char → List Char → List Char
  | _, [] => []
  | revPrefix, c :: rest =>
    if c.toNat = 0x3A3 && nearestIsCased revPrefix && !(nearestIsCased rest) then
      Char.ofNat 0x3C2 :: lowerListAux (c :: revPrefix) rest
    else
      jsLowerChar c ++ lowerListAux (c :: revPrefix) rest

/-- JavaScript `String.prototype.toLowerCase` (Unicode Default Case
Conversion, Unicode 14.0 data). -/
def lowerStr (s : String) : String :=
  String.mk (lowerListAux [] s.data)

/-- Replace the first element satisfying `p` by its image under `f`; the
embedding of the `findIndex` / assign-at-index idiom used throughout the
source. -/
def updateFirst {α : Type} (p : α → Bool) (f : α → α) : List α → List α
  | [] => []
  | x :: xs => if p x then f x :: xs else x :: updateFirst p f xs

/-- Insert `x` into `l` before the first element `y` with `le x y`. -/
def insertLe {α : Type} (le : α → α → Bool) (x : α) : List α → List α
  | [] => [x]
  | y :: ys => if le x y then x :: y :: ys else y :: insertLe le x ys

/-- Insertion sort by the boolean comparator `le`; the model of
`Array.prototype.sort`. -/
def sortLe {α : Type} (le : α → α → Bool) : List α → List α
  | [] => []
  | x :: xs => insertLe le x (sortLe le xs)

/-- Category name order derived from the locale comparator `lc`
(`a.name.localeCompare(b.name)` in the source). -/
def catLe (lc : String → String → Bool) (a b : Category) : Bool :=
  lc a.name b.name

/-- `sortCategories`: sort the registry by name with `localeCompare`. -/
def sortCategories (lc : String → String → Bool) (cs : List Category) : List Category :=
  sortLe (catLe lc) cs

/-- Build the per-month instance of an income template
(`{...i, id: fresh, isRecurring: true, recurringId: i.id}`). -/
def incomeInstanceOf (newId : Nat) (t : IncomeSource) : IncomeSource :=
  { t with id := newId, isRecurring := true, recurringId := some t.id }

/-- Build the per-month instance of an expense template
(`{...e, id: fresh, isRecurring: true, recurringId: e.id}`). -/
def expenseInstanceOf (newId : Nat) (t : Expense) : Expense :=
  { t with id := newId, isRecurring := true, recurringId := some t.id }

/-- Map each template to its instance, drawing a fresh id per position
(the `.map` calls inside `createMonthDataFromRecurring`). -/
def seedInstances {α β : Type} (inst : Nat → α → β) (fid : Nat → Nat) : Nat → List α → List β
  | _, [] => []
  | n, t :: ts => inst (fid n) t :: seedInstances inst fid (n + 1) ts

/-- `createMonthDataFromRecurring`: seed a fresh ledger from the current
recurring templates. `fidI`/`fidE` supply the fresh instance ids. -/
def createMonthDataFromRecurring (fidI fidE : Nat → Nat) (g : GlobalState) : MonthlyData :=
  { realIncome := seedInstances incomeInstanceOf fidI 0 g.recurringIncomes
  , plannedExpenses := seedInstances expenseInstanceOf fidE 0 g.recurringExpenses
  , realExpenses := [] }

/-- Apply `f` to every materialized month whose key is `≥ pivot`
(the `Object.keys(monthlyData).forEach` / `monthKey >= currentMonthKey`
pattern of the propagation code). -/
def mapMonths (pivot : MonthKey) (f : MonthlyData → MonthlyData) (tl : Timeline) : Timeline :=
  tl.map (fun p => if keyLe pivot p.1 then (p.1, f p.2) else p)

/-- ADD branch of `handleRecurringFormSubmit` for incomes: push the new
template, then append one linked instance to every materialized month
`≥ pivot`. The leading guard mirrors `if (!description || isNaN(amount)) return`
(NaN has no counterpart for `Int` amounts). `tid` is the template's
`Date.now()` id and `fid` the per-month fresh instance id. -/
def addRecurringIncome (tid : Nat) (fid : MonthKey → Nat) (description : String)
    (amount : Int) (pivot : MonthKey) (g : GlobalState) (tl : Timeline) :
    GlobalState × Timeline :=
  if description = "" then (g, tl) else
  let newRecurring : IncomeSource := { id := tid, description := description, amount := amount }
  let g' := { g with recurringIncomes := g.recurringIncomes ++ [newRecurring] }
  let tl' := tl.map (fun p => if keyLe pivot p.1 then
      (p.1, { p.2 with realIncome := p.2.realIncome ++ [incomeInstanceOf (fid p.1) newRecurring] })
    else p)
  (g', tl')

/-- ADD branch of `handleRecurringFormSubmit` for expenses. -/
def addRecurringExpense (tid : Nat) (fid : MonthKey → Nat) (description : String)
    (amount : Int) (category : String) (pivot : MonthKey) (g : GlobalState) (tl : Timeline) :
    GlobalState × Timeline :=
  if description = "" then (g, tl) else
  let newRecurring : Expense :=
    { id := tid, description := description, amount := amount, category := category }
  let g' := { g with recurringExpenses := g.recurringExpenses ++ [newRecurring] }
  let tl' := tl.map (fun p => if keyLe pivot p.1 then
      (p.1, { p.2 with plannedExpenses := p.2.plannedExpenses ++ [expenseInstanceOf (fid p.1) newRecurring] })
    else p)
  (g', tl')

/-- The field assignment `{description, amount}` applied to an income row
(both to templates and, via `Object.assign`, to instances). -/
def setIncomeFields (description : String) (amount : Int) (i : IncomeSource) : IncomeSource :=
  { i with description := description, amount := amount }

/-- The field assignment `{description, amount, category}` applied to an
expense row. -/
def setExpenseFields (description : String) (amount : Int) (category : String)
    (e : Expense) : Expense :=
  { e with description := description, amount := amount, category := category }

/-- UPDATE branch of `handleRecurringFormSubmit` for incomes: overwrite the
first template with matching id (if any), then, in every materialized month
`≥ pivot`, assign the new fields to the first instance with matching
`recurringId` (if any). The month loop runs whether or not the template was
found, exactly as in the source. -/
def updateRecurringIncome (id : Nat) (description : String) (amount : Int)
    (pivot : MonthKey) (g : GlobalState) (tl : Timeline) : GlobalState × Timeline :=
  if description = "" then (g, tl) else
  let newIncomes := updateFirst (fun i => i.id == id) (setIncomeFields description amount) g.recurringIncomes
  let g' := { g with recurringIncomes := newIncomes }
  let tl' := mapMonths pivot (fun m =>
      { m with realIncome := updateFirst (fun i => i.recurringId == some id) (setIncomeFields description amount) m.realIncome }) tl
  (g', tl')

/-- UPDATE branch of `handleRecurringFormSubmit` for expenses (also rewrites
the category). -/
def updateRecurringExpense (id : Nat) (description : String) (amount : Int)
    (category : String) (pivot : MonthKey) (g : GlobalState) (tl : Timeline) :
    GlobalState × Timeline :=
  if description = "" then (g, tl) else
  let newExpenses := updateFirst (fun e => e.id == id) (setExpenseFields description amount category) g.recurringExpenses
  let g' := { g with recurringExpenses := newExpenses }
  let tl' := mapMonths pivot (fun m =>
      { m with plannedExpenses := updateFirst (fun e => e.recurringId == some id) (setExpenseFields description amount category) m.plannedExpenses }) tl
  (g', tl')

/-- `handleDeleteRecurring` for incomes: drop every matching instance in
months `≥ pivot`, then drop the template from the store. -/
def handleDeleteRecurringIncome (id : Nat) (pivot : MonthKey) (g : GlobalState)
    (tl : Timeline) : GlobalState × Timeline :=
  let tl' := mapMonths pivot (fun m =>
      { m with realIncome := m.realIncome.filter (fun i => i.recurringId != some id) }) tl
  let g' := { g with recurringIncomes := g.recurringIncomes.filter (fun i => i.id != id) }
  (g', tl')

/-- `handleDeleteRecurring` for expenses. -/
def handleDeleteRecurringExpense (id : Nat) (pivot : MonthKey) (g : GlobalState)
    (tl : Timeline) : GlobalState × Timeline :=
  let tl' := mapMonths pivot (fun m =>
      { m with plannedExpenses := m.plannedExpenses.filter (fun e => e.recurringId != some id) }) tl
  let g' := { g with recurringExpenses := g.recurringExpenses.filter (fun e => e.id != id) }
  (g', tl')

/-- The fixed color given to every category created through
`handleAddCategory`. -/
def defaultNewColor : String := "#94a3b8"

/-- `handleAddCategory`: trim the input; when it is nonempty and no existing
name matches case-insensitively, push `{name, color: defaultNewColor}` and
re-sort; otherwise alert and leave the state alone. The returned `Bool`
records success (`false` = the alert branch). -/
def handleAddCategory (lc : String → String → Bool) (input : String)
    (g : GlobalState) : GlobalState × Bool :=
  let name := trimStr input
  if name ≠ "" ∧ (g.categories.any (fun c => lowerStr c.name == lowerStr name)) = false then
    ({ g with categories := sortCategories lc (g.categories ++ [{ name := name, color := defaultNewColor }]) }, true)
  else (g, false)

/-- The three usage classes reported by the category-deletion guard,
in the order the source pushes them into `usageInfo`. -/
inductive UsageClass where
  | planned
  | real
  | recurring
deriving DecidableEq

/-- `handleDeleteCategory`: scan planned expenses, real expenses and
recurring expense templates for the name; a nonempty returned list is the
`usageInfo` of the blocking alert (deletion refused, state unchanged); an
empty list means the category was removed (the `confirm()` dialog is modelled
as accepted). -/
def handleDeleteCategory (categoryName : String) (g : GlobalState) (tl : Timeline) :
    GlobalState × List UsageClass :=
  let isUsedInPlanned := tl.any (fun p => p.2.plannedExpenses.any (fun e => e.category == categoryName))
  let isUsedInReal := tl.any (fun p => p.2.realExpenses.any (fun e => e.linkedCategory == categoryName))
  let isUsedInRecurring := g.recurringExpenses.any (fun e => e.category == categoryName)
  if isUsedInPlanned || isUsedInRecurring || isUsedInReal then
    (g, (if isUsedInPlanned then [UsageClass.planned] else []) ++
        (if isUsedInReal then [UsageClass.real] else []) ++
        (if isUsedInRecurring then [UsageClass.recurring] else []))
  else
    ({ g with categories := g.categories.filter (fun c => c.name != categoryName) }, [])

/-- The color-picker `change` listener: find the first category with the
given name and overwrite its color in place. -/
def handleChangeColor (categoryName newColor : String) (g : GlobalState) : GlobalState :=
  let newCategories := updateFirst (fun c => c.name == categoryName) (fun c => { c with color := newColor }) g.categories
  { g with categories := newCategories }

/-- A persisted month record before migration: `plannedExpenses`,
the legacy `expenses`, and `realExpenses` may each be absent. -/
structure RawMonth where
  realIncome : List IncomeSource
  plannedExpenses : Option (List Expense)
  expenses : Option (List Expense)
  realExpenses : Option (List RealExpense)
deriving DecidableEq

/-- The per-month body of the migration loop in `initializeState`:
rename a legacy `expenses` list to `plannedExpenses` when the latter is
absent, then default a missing `realExpenses` to `[]`.  (Presence of a field
is JS truthiness here: the stored lists are arrays, which are always
truthy.) -/
def migrateMonth (m : RawMonth) : RawMonth :=
  let m1 := match m.expenses, m.plannedExpenses with
    | some e, none => { m with plannedExpenses := some e, expenses := none }
    | _, _ => m
  match m1.realExpenses with
  | none => { m1 with realExpenses := some [] }
  | some _ => m1

/-- Raw persisted timeline. -/
abbrev RawTimeline := List (MonthKey × RawMonth)

/-- The whole migration loop (`Object.keys(monthlyData).forEach`). -/
def migrateAll (tl : RawTimeline) : RawTimeline :=
  tl.map (fun p => (p.1, migrateMonth p.2))

/-- `loadFromStorage`: absent key, empty string (falsy in JS) or a parse
failure all yield `none`; otherwise the parsed value. -/
def loadFromStorage {α : Type} (raw : Option String) (parse : String → Option α) : Option α :=
  match raw with
  | none => none
  | some s => if s = "" then none else parse s

/-- The four persisted blobs as raw `localStorage` contents. -/
structure Storage where
  monthlyData : Option String
  recurringIncomes : Option String
  recurringExpenses : Option String
  categories : Option String

/-- Abstract `JSON.parse`-and-cast for each blob. -/
structure Parsers where
  pMonthly : String → Option RawTimeline
  pIncomes : String → Option (List IncomeSource)
  pExpenses : String → Option (List Expense)
  pCategories : String → Option (List Category)

/-- The default category seed list installed when the `categories` blob is
absent or corrupt. -/
def defaultCategories : List Category :=
  [ { name := "Animaux", color := "#10b981" }
  , { name := "Assurance", color := "#06b6d4" }
  , { name := "Cadeaux et association caritative", color := "#8b5cf6" }
  , { name := "Enfants", color := "#d946ef" }
  , { name := "Épargne ou investissements", color := "#f97316" }
  , { name := "Logement", color := "#ef4444" }
  , { name := "Loisirs", color := "#ec4899" }
  , { name := "Prêts", color := "#84cc16" }
  , { name := "Repas", color := "#eab308" }
  , { name := "Soins personnels", color := "#6366f1" }
  , { name := "Taxes", color := "#78716c" }
  , { name := "Transport", color := "#64748b" } ]

/-- The state assembled by `initializeState`. -/
structure AppState where
  g : GlobalState
  monthly : RawTimeline
deriving DecidableEq

/-- View a freshly seeded ledger as a persisted month record (all lists
present). -/
def rawOfMonthly (m : MonthlyData) : RawMonth :=
  { realIncome := m.realIncome, plannedExpenses := some m.plannedExpenses
  , expenses := none, realExpenses := some m.realExpenses }

/-- `initializeState`: load the four blobs independently with their
defaults, sort the categories, migrate the timeline, and seed the selected
month when it is not yet materialized. -/
def initializeState (lc : String → String → Bool) (ps : Parsers) (st : Storage)
    (selectedMonth : MonthKey) (fidI fidE : Nat → Nat) : AppState :=
  let recurringIncomes := (loadFromStorage st.recurringIncomes ps.pIncomes).getD []
  let recurringExpenses := (loadFromStorage st.recurringExpenses ps.pExpenses).getD []
  let categories := (loadFromStorage st.categories ps.pCategories).getD defaultCategories
  let g : GlobalState :=
    { categories := sortCategories lc categories
    , recurringIncomes := recurringIncomes
    , recurringExpenses := recurringExpenses }
  let monthly := (loadFromStorage st.monthlyData ps.pMonthly).getD []
  let monthly := migrateAll monthly
  let monthly :=
    if (monthly.lookup selectedMonth).isSome then monthly
    else monthly ++ [(selectedMonth, rawOfMonthly (createMonthDataFromRecurring fidI fidE g))]
  { g := g, monthly := monthly }

end Budget

namespace Budget

/-! ### Helper lemmas about the list combinators -/

theorem updateFirst_of_forall_not {α : Type} {p : α → Bool} {f : α → α} :
    ∀ {l : List α}, (∀ x ∈ l, p x = false) → updateFirst p f l = l := by
  intro l h
  induction l with
  | nil => rfl
  | cons x xs ih =>
    simp only [updateFirst, h x (List.mem_cons_self x xs)]
    simp only [Bool.false_eq_true, if_false, List.cons.injEq, true_and]
    exact ih fun y hy => h y (List.mem_cons_of_mem x hy)

theorem updateFirst_sat {α : Type} {p : α → Bool} {f : α → α} {Q : α → Prop} :
    ∀ {l : List α}, (∀ x ∈ l, p x = true → Q (f x)) → l.countP p ≤ 1 →
      ∀ y ∈ updateFirst p f l, p y = true → Q y := by
  intro l
  induction l with
  | nil => intro _ _ y hy; simp [updateFirst] at hy
  | cons x xs ih =>
    intro hf hc y hy hpy
    simp only [updateFirst] at hy
    by_cases hx : p x = true
    · rw [if_pos hx] at hy
      rcases List.mem_cons.mp hy with rfl | hy2
      · exact hf x (List.mem_cons_self x xs) hx
      · exfalso
        have h1 : 0 < xs.countP p := List.countP_pos_iff.mpr ⟨y, hy2, hpy⟩
        have h2 : (x :: xs).countP p = xs.countP p + 1 := by
          simp [List.countP_cons, hx]
        omega
    · rw [if_neg hx] at hy
      rcases List.mem_cons.mp hy with rfl | hy2
      · exact absurd hpy hx
      · have hc2 : xs.countP p ≤ 1 := by
          have h2 : (x :: xs).countP p = xs.countP p := by
            simp [List.countP_cons, hx]
          omega
        exact ih (fun z hz => hf z (List.mem_cons_of_mem x hz)) hc2 y hy2 hpy

theorem updateFirst_exists {α : Type} {p : α → Bool} {f : α → α} :
    ∀ {l : List α}, (∃ x ∈ l, p x = true) →
      ∃ x ∈ l, p x = true ∧ f x ∈ updateFirst p f l := by
  intro l h
  induction l with
  | nil => simp at h
  | cons x xs ih =>
    by_cases hx : p x = true
    · refine ⟨x, List.mem_cons_self x xs, hx, ?_⟩
      simp [updateFirst, hx]
    · rcases h with ⟨z, hz, hpz⟩
      rcases List.mem_cons.mp hz with rfl | hz2
      · exact absurd hpz hx
      · rcases ih ⟨z, hz2, hpz⟩ with ⟨w, hw, hpw, hmem⟩
        refine ⟨w, List.mem_cons_of_mem x hw, hpw, ?_⟩
        simp [updateFirst, hx]
        exact Or.inr hmem

theorem updateFirst_mem_of_not {α : Type} {p : α → Bool} {f : α → α}
    (hp : ∀ x, p (f x) = p x) :
    ∀ {l : List α}, ∀ y ∈ updateFirst p f l, p y = false → y ∈ l := by
  intro l
  induction l with
  | nil => intro y hy; simp [updateFirst] at hy
  | cons x xs ih =>
    intro y hy hpy
    simp only [updateFirst] at hy
    by_cases hx : p x = true
    · rw [if_pos hx] at hy
      rcases List.mem_cons.mp hy with rfl | hy2
      · rw [hp x, hx] at hpy; exact absurd hpy (by simp)
      · exact List.mem_cons_of_mem x hy2
    · rw [if_neg hx] at hy
      rcases List.mem_cons.mp hy with h1 | hy2
      · exact List.mem_cons.mpr (Or.inl h1)
      · exact List.mem_cons_of_mem x (ih y hy2 hpy)

theorem insertLe_perm {α : Type} (le : α → α → Bool) (x : α) :
    ∀ l : List α, (insertLe le x l).Perm (x :: l) := by
  intro l
  induction l with
  | nil => exact List.Perm.refl _
  | cons y ys ih =>
    simp only [insertLe]
    by_cases h : le x y = true
    · rw [if_pos h]
    · rw [if_neg h]
      exact (ih.cons y).trans (List.Perm.swap x y ys)

theorem sortLe_perm {α : Type} (le : α → α → Bool) :
    ∀ l : List α, (sortLe le l).Perm l := by
  intro l
  induction l with
  | nil => exact List.Perm.refl _
  | cons x xs ih =>
    exact (insertLe_perm le x (sortLe le xs)).trans (ih.cons x)

theorem mem_insertLe {α : Type} {le : α → α → Bool} {x y : α} {l : List α} :
    y ∈ insertLe le x l ↔ y = x ∨ y ∈ l := by
  rw [(insertLe_perm le x l).mem_iff, List.mem_cons]

theorem insertLe_pairwise {α : Type} {le : α → α → Bool}
    (htot : ∀ a b, le a b = true ∨ le b a = true)
    (htrans : ∀ a b c, le a b = true → le b c = true → le a c = true)
    (x : α) :
    ∀ {l : List α}, l.Pairwise (fun a b => le a b = true) →
      (insertLe le x l).Pairwise (fun a b => le a b = true) := by
  intro l h
  induction l with
  | nil => simp [insertLe]
  | cons y ys ih =>
    rcases List.pairwise_cons.mp h with ⟨hy, hys⟩
    simp only [insertLe]
    by_cases hxy : le x y = true
    · rw [if_pos hxy]
      refine List.pairwise_cons.mpr ⟨?_, h⟩
      intro b hb
      rcases List.mem_cons.mp hb with rfl | hb2
      · exact hxy
      · exact htrans x y b hxy (hy b hb2)
    · rw [if_neg hxy]
      refine List.pairwise_cons.mpr ⟨?_, ih hys⟩
      intro b hb
      rcases mem_insertLe.mp hb with h1 | hb2
      · rcases htot x y with h2 | h2
        · exact absurd h2 hxy
        · rw [h1]; exact h2
      · exact hy b hb2

theorem sortLe_pairwise {α : Type} {le : α → α → Bool}
    (htot : ∀ a b, le a b = true ∨ le b a = true)
    (htrans : ∀ a b c, le a b = true → le b c = true → le a c = true) :
    ∀ l : List α, (sortLe le l).Pairwise (fun a b => le a b = true) := by
  intro l
  induction l with
  | nil => simp [sortLe]
  | cons x xs ih => exact insertLe_pairwise htot htrans x ih

theorem seedInstances_forall₂ {α β : Type} {inst : Nat → α → β} {fid : Nat → Nat}
    {R : α → β → Prop} (h : ∀ k t, R t (inst (fid k) t)) :
    ∀ (n : Nat) (l : List α), List.Forall₂ R l (seedInstances inst fid n l) := by
  intro n l
  induction l generalizing n with
  | nil => exact List.Forall₂.nil
  | cons t ts ih => exact List.Forall₂.cons (h n t) (ih (n + 1))

theorem forall₂_map_self {α : Type} {R : α → α → Prop} {g : α → α} {l : List α}
    (h : ∀ x ∈ l, R x (g x)) : List.Forall₂ R l (l.map g) :=
  List.forall₂_map_right_iff.mpr (List.forall₂_same.mpr h)

end Budget

namespace Budget

/-! ### Concrete states used by the witnesses -/

/-- The trivial comparator, used to instantiate the abstract locale
comparator in witnesses. -/
def luTrue : String → String → Bool := fun _ _ => true

/-- An empty month ledger. -/
def mdEmpty : MonthlyData :=
  { realIncome := [], plannedExpenses := [], realExpenses := [] }

/-- A small global state: one category, one recurring income, one recurring
expense (both templates have id 5). -/
def gW : GlobalState :=
  { categories := [{ name := "Repas", color := "#eab308" }]
  , recurringIncomes := [{ id := 5, description := "Salaire", amount := 100 }]
  , recurringExpenses := [{ id := 5, description := "Loyer", amount := 50, category := "Repas" }] }

/-- Two materialized months, both empty. -/
def tlW : Timeline := [("2024-02", mdEmpty), ("2024-03", mdEmpty)]

/-- Claim C4: materializing a never-before-seen month via
`createMonthDataFromRecurring` yields a ledger whose `realIncome` carries
exactly one instance per current recurring income template and whose
`plannedExpenses` carries exactly one instance per current recurring expense
template — in template order, each with `isRecurring = true`, `recurringId`
equal to the originating template's id, and the template's
description/amount (and category for expenses) — and whose `realExpenses`
is empty. -/
theorem seeding_projects_templates (fidI fidE : Nat → Nat) (g : GlobalState) :
    (createMonthDataFromRecurring fidI fidE g).realExpenses = [] ∧
    List.Forall₂
      (fun (t inst : IncomeSource) =>
        inst.isRecurring = true ∧ inst.recurringId = some t.id ∧
        inst.description = t.description ∧ inst.amount = t.amount)
      g.recurringIncomes (createMonthDataFromRecurring fidI fidE g).realIncome ∧
    List.Forall₂
      (fun (t inst : Expense) =>
        inst.isRecurring = true ∧ inst.recurringId = some t.id ∧
        inst.description = t.description ∧ inst.amount = t.amount ∧
        inst.category = t.category)
      g.recurringExpenses (createMonthDataFromRecurring fidI fidE g).plannedExpenses := by
  refine ⟨rfl, ?_, ?_⟩
  · exact seedInstances_forall₂ (fun k t => ⟨rfl, rfl, rfl, rfl⟩) 0 g.recurringIncomes
  · exact seedInstances_forall₂ (fun k t => ⟨rfl, rfl, rfl, rfl, rfl⟩) 0 g.recurringExpenses

/-- Claim C7: the migration-on-load transformation is idempotent on every
persisted ledger map, and a ledger that already has `plannedExpenses` and
`realExpenses` is left with every field unchanged. -/
theorem migration_idempotent :
    (∀ tl : RawTimeline, migrateAll (migrateAll tl) = migrateAll tl) ∧
    (∀ m : RawMonth, m.plannedExpenses.isSome = true → m.realExpenses.isSome = true →
      migrateMonth m = m) := by
  have hmono : ∀ m : RawMonth, migrateMonth (migrateMonth m) = migrateMonth m := by
    intro m
    rcases m with ⟨ri, pe, ex, re⟩
    rcases pe with _ | pe <;> rcases ex with _ | ex <;> rcases re with _ | re <;> rfl
  constructor
  · intro tl
    simp only [migrateAll, List.map_map]
    apply List.map_congr_left
    intro p _
    simp [Function.comp, hmono]
  · intro m h1 h2
    rcases m with ⟨ri, pe, ex, re⟩
    rcases pe with _ | pe
    · simp at h1
    · rcases re with _ | re
      · simp at h2
      · rcases ex with _ | ex <;> rfl

/-- A persisted month that already has both `plannedExpenses` and
`realExpenses`. -/
def rawW : RawMonth :=
  { realIncome := [], plannedExpenses := some [], expenses := none, realExpenses := some [] }

/-- Witness for C7 at a concrete one-month map. -/
theorem migration_idempotent_witness :
    migrateAll (migrateAll [("2024-01", rawW)]) = migrateAll [("2024-01", rawW)] ∧
    rawW.plannedExpenses.isSome = true ∧ rawW.realExpenses.isSome = true ∧
    migrateMonth rawW = rawW :=
  ⟨migration_idempotent.1 [("2024-01", rawW)], by decide, by decide,
    migration_idempotent.2 rawW (by decide) (by decide)⟩

/-- Claim C5: `handleDeleteCategory` refuses (nonempty usage report, the
`CategoryInUse` alert) iff the name occurs in some materialized month's
planned expenses, some materialized month's real expenses, or some recurring
expense template; the report contains exactly the usage classes that
matched; on refusal the state is unchanged, and on success the category is
removed from the registry while the recurring stores (and the timeline,
which the handler never writes) are unchanged. -/
theorem deleteCategory_guard (categoryName : String) (g : GlobalState) (tl : Timeline) :
    ((handleDeleteCategory categoryName g tl).2 ≠ [] ↔
      ((∃ kv ∈ tl, ∃ e ∈ kv.2.plannedExpenses, e.category = categoryName) ∨
       (∃ kv ∈ tl, ∃ e ∈ kv.2.realExpenses, e.linkedCategory = categoryName) ∨
       (∃ t ∈ g.recurringExpenses, t.category = categoryName))) ∧
    (UsageClass.planned ∈ (handleDeleteCategory categoryName g tl).2 ↔
      ∃ kv ∈ tl, ∃ e ∈ kv.2.plannedExpenses, e.category = categoryName) ∧
    (UsageClass.real ∈ (handleDeleteCategory categoryName g tl).2 ↔
      ∃ kv ∈ tl, ∃ e ∈ kv.2.realExpenses, e.linkedCategory = categoryName) ∧
    (UsageClass.recurring ∈ (handleDeleteCategory categoryName g tl).2 ↔
      ∃ t ∈ g.recurringExpenses, t.category = categoryName) ∧
    ((handleDeleteCategory categoryName g tl).2 ≠ [] →
      (handleDeleteCategory categoryName g tl).1 = g) ∧
    ((handleDeleteCategory categoryName g tl).2 = [] →
      (handleDeleteCategory categoryName g tl).1.categories =
        g.categories.filter (fun c => c.name ≠ categoryName) ∧
      (handleDeleteCategory categoryName g tl).1.recurringIncomes = g.recurringIncomes ∧
      (handleDeleteCategory categoryName g tl).1.recurringExpenses = g.recurringExpenses) := by
  have hP : (tl.any (fun kv => kv.2.plannedExpenses.any (fun e => e.category == categoryName))) = true ↔
      ∃ kv ∈ tl, ∃ e ∈ kv.2.plannedExpenses, e.category = categoryName := by
    simp [List.any_eq_true]
  have hR : (tl.any (fun kv => kv.2.realExpenses.any (fun e => e.linkedCategory == categoryName))) = true ↔
      ∃ kv ∈ tl, ∃ e ∈ kv.2.realExpenses, e.linkedCategory = categoryName := by
    simp [List.any_eq_true]
  have hT : (g.recurringExpenses.any (fun e => e.category == categoryName)) = true ↔
      ∃ t ∈ g.recurringExpenses, t.category = categoryName := by
    simp [List.any_eq_true]
  have hfil : g.categories.filter (fun c => c.name != categoryName) =
      g.categories.filter (fun c => decide (c.name ≠ categoryName)) := by
    apply List.filter_congr
    intro c _
    by_cases hc : c.name = categoryName <;> simp [bne, hc]
  cases hb1 : tl.any (fun kv => kv.2.plannedExpenses.any (fun e => e.category == categoryName)) <;>
    cases hb2 : tl.any (fun kv => kv.2.realExpenses.any (fun e => e.linkedCategory == categoryName)) <;>
      cases hb3 : g.recurringExpenses.any (fun e => e.category == categoryName) <;>
        simp only [handleDeleteCategory, hb1, hb2, hb3] <;>
          simp [← hP, ← hR, ← hT, hb1, hb2, hb3, hfil]

end Budget

namespace Budget

/-- Claim C1: creating a recurring template with a fresh id at pivot month
`P` appends exactly one linked instance (with the template's
description/amount — and category for expenses — `isRecurring = true` and
`recurringId` the template id) to the appropriate list of every materialized
month `≥ P`, and leaves every materialized month `< P` without any instance
of that template. Freshness of the template id (no pre-existing instance
links to it) and a nonempty description (the form guard) are the
hypotheses. -/
theorem createTemplate_propagation (tid : Nat) (fidM : MonthKey → Nat)
    (d : String) (a : Int) (cat : String) (P : MonthKey) (g : GlobalState) (tl : Timeline)
    (hd : d ≠ "")
    (hfreshI : ∀ kv ∈ tl, ∀ i ∈ (kv : MonthKey × MonthlyData).2.realIncome, i.recurringId ≠ some tid)
    (hfreshE : ∀ kv ∈ tl, ∀ e ∈ (kv : MonthKey × MonthlyData).2.plannedExpenses, e.recurringId ≠ some tid) :
    List.Forall₂ (fun before after => before.1 = after.1 ∧
        (keyLe P before.1 = true →
          after.2.realIncome.countP (fun i => i.recurringId == some tid) = 1 ∧
          ∀ i ∈ after.2.realIncome, i.recurringId = some tid →
            i.isRecurring = true ∧ i.description = d ∧ i.amount = a) ∧
        (keyLe P before.1 = false → after = before ∧
          ∀ i ∈ after.2.realIncome, i.recurringId ≠ some tid))
      tl (addRecurringIncome tid fidM d a P g tl).2 ∧
    List.Forall₂ (fun before after => before.1 = after.1 ∧
        (keyLe P before.1 = true →
          after.2.plannedExpenses.countP (fun e => e.recurringId == some tid) = 1 ∧
          ∀ e ∈ after.2.plannedExpenses, e.recurringId = some tid →
            e.isRecurring = true ∧ e.description = d ∧ e.amount = a ∧ e.category = cat) ∧
        (keyLe P before.1 = false → after = before ∧
          ∀ e ∈ after.2.plannedExpenses, e.recurringId ≠ some tid))
      tl (addRecurringExpense tid fidM d a cat P g tl).2 := by
  constructor
  · have h2 : (addRecurringIncome tid fidM d a P g tl).2 =
        tl.map (fun p => if keyLe P p.1 then
          (p.1, { p.2 with realIncome := p.2.realIncome ++
            [incomeInstanceOf (fidM p.1) { id := tid, description := d, amount := a }] })
          else p) := by
      unfold addRecurringIncome
      rw [if_neg hd]
    rw [h2]
    apply forall₂_map_self
    intro kv hkv
    by_cases hk : keyLe P kv.1 = true
    · rw [if_pos hk]
      refine ⟨rfl, fun _ => ⟨?_, ?_⟩, fun hkf => absurd (hk.symm.trans hkf) (by decide)⟩
      · rw [List.countP_append]
        have hz : kv.2.realIncome.countP (fun i => i.recurringId == some tid) = 0 := by
          rw [List.countP_eq_zero]
          intro i hi
          simp only [beq_iff_eq]
          exact hfreshI kv hkv i hi
        rw [hz]
        simp [incomeInstanceOf]
      · intro i hi hrid
        rcases List.mem_append.mp hi with hil | hir
        · exact absurd hrid (hfreshI kv hkv i hil)
        · have hie : i = incomeInstanceOf (fidM kv.1) { id := tid, description := d, amount := a } := by
            simpa using hir
          rw [hie]
          exact ⟨rfl, rfl, rfl⟩
    · rw [if_neg hk]
      exact ⟨rfl, fun hkt => absurd hkt hk, fun _ => ⟨rfl, fun i hi => hfreshI kv hkv i hi⟩⟩
  · have h2 : (addRecurringExpense tid fidM d a cat P g tl).2 =
        tl.map (fun p => if keyLe P p.1 then
          (p.1, { p.2 with plannedExpenses := p.2.plannedExpenses ++
            [expenseInstanceOf (fidM p.1) { id := tid, description := d, amount := a, category := cat }] })
          else p) := by
      unfold addRecurringExpense
      rw [if_neg hd]
    rw [h2]
    apply forall₂_map_self
    intro kv hkv
    by_cases hk : keyLe P kv.1 = true
    · rw [if_pos hk]
      refine ⟨rfl, fun _ => ⟨?_, ?_⟩, fun hkf => absurd (hk.symm.trans hkf) (by decide)⟩
      · rw [List.countP_append]
        have hz : kv.2.plannedExpenses.countP (fun e => e.recurringId == some tid) = 0 := by
          rw [List.countP_eq_zero]
          intro e he
          simp only [beq_iff_eq]
          exact hfreshE kv hkv e he
        rw [hz]
        simp [expenseInstanceOf]
      · intro e he hrid
        rcases List.mem_append.mp he with hel | her
        · exact absurd hrid (hfreshE kv hkv e hel)
        · have hee : e = expenseInstanceOf (fidM kv.1) { id := tid, description := d, amount := a, category := cat } := by
            simpa using her
          rw [hee]
          exact ⟨rfl, rfl, rfl, rfl⟩
    · rw [if_neg hk]
      exact ⟨rfl, fun hkt => absurd hkt hk, fun _ => ⟨rfl, fun e he => hfreshE kv hkv e he⟩⟩

end Budget

namespace Budget

/-- Witness for C1: concrete creation of an income and an expense template
with fresh id 42 at pivot `2024-03` over the two-month timeline `tlW`. -/
theorem createTemplate_propagation_witness :
    List.Forall₂ (fun before after => before.1 = after.1 ∧
        (keyLe "2024-03" before.1 = true →
          after.2.realIncome.countP (fun i => i.recurringId == some 42) = 1 ∧
          ∀ i ∈ after.2.realIncome, i.recurringId = some 42 →
            i.isRecurring = true ∧ i.description = "Salaire" ∧ i.amount = (2000 : Int)) ∧
        (keyLe "2024-03" before.1 = false → after = before ∧
          ∀ i ∈ after.2.realIncome, i.recurringId ≠ some 42))
      tlW (addRecurringIncome 42 (fun _ => 100) "Salaire" 2000 "2024-03" gW tlW).2 ∧
    List.Forall₂ (fun before after => before.1 = after.1 ∧
        (keyLe "2024-03" before.1 = true →
          after.2.plannedExpenses.countP (fun e => e.recurringId == some 42) = 1 ∧
          ∀ e ∈ after.2.plannedExpenses, e.recurringId = some 42 →
            e.isRecurring = true ∧ e.description = "Loyer" ∧ e.amount = (800 : Int) ∧
            e.category = "Repas") ∧
        (keyLe "2024-03" before.1 = false → after = before ∧
          ∀ e ∈ after.2.plannedExpenses, e.recurringId ≠ some 42))
      tlW (addRecurringExpense 42 (fun _ => 100) "Loyer" 800 "Repas" "2024-03" gW tlW).2 :=
  createTemplate_propagation 42 (fun _ => 100) "Loyer" 800 "Repas" "2024-03" gW tlW
    (by decide) (by decide) (by decide) |>.2 |> fun hE =>
  createTemplate_propagation 42 (fun _ => 100) "Salaire" 2000 "Repas" "2024-03" gW tlW
    (by decide) (by decide) (by decide) |>.1 |> fun hI => ⟨hI, hE⟩

end Budget

namespace Budget

/-- Claim C2: updating an existing recurring template at pivot `P` rewrites
the template's fields in the store and, in every materialized month `≥ P`,
rewrites every instance linked to it (under the reachable-state invariant
that each month holds at most one instance per template), while every
materialized month `< P` is left byte-for-byte unchanged. The nonempty
description reflects the form guard. -/
theorem updateTemplate_isolation (id : Nat) (d : String) (a : Int) (cat : String)
    (P : MonthKey) (g : GlobalState) (tl : Timeline) (hd : d ≠ "") :
    ((∃ t ∈ g.recurringIncomes, t.id = id) →
     (∀ kv ∈ tl, (kv : MonthKey × MonthlyData).2.realIncome.countP
        (fun i => i.recurringId == some id) ≤ 1) →
      (∃ t ∈ (updateRecurringIncome id d a P g tl).1.recurringIncomes,
          t.id = id ∧ t.description = d ∧ t.amount = a) ∧
      List.Forall₂ (fun before after => before.1 = after.1 ∧
          (keyLe P before.1 = true → ∀ i ∈ after.2.realIncome,
              i.recurringId = some id → i.description = d ∧ i.amount = a) ∧
          (keyLe P before.1 = false → after = before))
        tl (updateRecurringIncome id d a P g tl).2) ∧
    ((∃ t ∈ g.recurringExpenses, t.id = id) →
     (∀ kv ∈ tl, (kv : MonthKey × MonthlyData).2.plannedExpenses.countP
        (fun e => e.recurringId == some id) ≤ 1) →
      (∃ t ∈ (updateRecurringExpense id d a cat P g tl).1.recurringExpenses,
          t.id = id ∧ t.description = d ∧ t.amount = a ∧ t.category = cat) ∧
      List.Forall₂ (fun before after => before.1 = after.1 ∧
          (keyLe P before.1 = true → ∀ e ∈ after.2.plannedExpenses,
              e.recurringId = some id → e.description = d ∧ e.amount = a ∧ e.category = cat) ∧
          (keyLe P before.1 = false → after = before))
        tl (updateRecurringExpense id d a cat P g tl).2) := by
  constructor
  · intro hex hcnt
    have h1 : (updateRecurringIncome id d a P g tl).1 =
        { g with recurringIncomes :=
            updateFirst (fun i => i.id == id) (setIncomeFields d a) g.recurringIncomes } := by
      unfold updateRecurringIncome
      rw [if_neg hd]
    have h2 : (updateRecurringIncome id d a P g tl).2 =
        mapMonths P (fun m => { m with realIncome := updateFirst (fun i => i.recurringId == some id) (setIncomeFields d a) m.realIncome }) tl := by
      unfold updateRecurringIncome
      rw [if_neg hd]
    constructor
    · rw [h1]
      rcases hex with ⟨t, ht, hid⟩
      rcases updateFirst_exists (p := fun i => i.id == id) (f := setIncomeFields d a)
          ⟨t, ht, by simp [hid]⟩ with ⟨x, hx, hpx, hmem⟩
      refine ⟨setIncomeFields d a x, hmem, ?_, rfl, rfl⟩
      simpa [setIncomeFields] using hpx
    · rw [h2]
      unfold mapMonths
      apply forall₂_map_self
      intro kv hkv
      by_cases hk : keyLe P kv.1 = true
      · rw [if_pos hk]
        refine ⟨rfl, fun _ => ?_, fun hkf => absurd (hk.symm.trans hkf) (by decide)⟩
        intro i hi hrid
        exact updateFirst_sat (Q := fun i => i.description = d ∧ i.amount = a)
          (fun x _ _ => ⟨rfl, rfl⟩) (hcnt kv hkv) i hi (by simp [hrid])
      · rw [if_neg hk]
        exact ⟨rfl, fun hkt => absurd hkt hk, fun _ => rfl⟩
  · intro hex hcnt
    have h1 : (updateRecurringExpense id d a cat P g tl).1 =
        { g with recurringExpenses :=
            updateFirst (fun e => e.id == id) (setExpenseFields d a cat) g.recurringExpenses } := by
      unfold updateRecurringExpense
      rw [if_neg hd]
    have h2 : (updateRecurringExpense id d a cat P g tl).2 =
        mapMonths P (fun m => { m with plannedExpenses := updateFirst (fun e => e.recurringId == some id) (setExpenseFields d a cat) m.plannedExpenses }) tl := by
      unfold updateRecurringExpense
      rw [if_neg hd]
    constructor
    · rw [h1]
      rcases hex with ⟨t, ht, hid⟩
      rcases updateFirst_exists (p := fun e => e.id == id) (f := setExpenseFields d a cat)
          ⟨t, ht, by simp [hid]⟩ with ⟨x, hx, hpx, hmem⟩
      refine ⟨setExpenseFields d a cat x, hmem, ?_, rfl, rfl, rfl⟩
      simpa [setExpenseFields] using hpx
    · rw [h2]
      unfold mapMonths
      apply forall₂_map_self
      intro kv hkv
      by_cases hk : keyLe P kv.1 = true
      · rw [if_pos hk]
        refine ⟨rfl, fun _ => ?_, fun hkf => absurd (hk.symm.trans hkf) (by decide)⟩
        intro e he hrid
        exact updateFirst_sat (Q := fun e => e.description = d ∧ e.amount = a ∧ e.category = cat)
          (fun x _ _ => ⟨rfl, rfl, rfl⟩) (hcnt kv hkv) e he (by simp [hrid])
      · rw [if_neg hk]
        exact ⟨rfl, fun hkt => absurd hkt hk, fun _ => rfl⟩

end Budget

namespace Budget

/-- A two-month timeline in which each month carries one instance of the
income template 5 and one instance of the expense template 5. -/
def tlU : Timeline :=
  [ ("2024-02", { realIncome := [{ id := 11, description := "SalaireOld", amount := 90, isRecurring := true, recurringId := some 5 }]
                , plannedExpenses := [{ id := 12, description := "LoyerOld", amount := 45, category := "Repas", isRecurring := true, recurringId := some 5 }]
                , realExpenses := [] })
  , ("2024-03", { realIncome := [{ id := 13, description := "SalaireOld", amount := 90, isRecurring := true, recurringId := some 5 }]
                , plannedExpenses := [{ id := 14, description := "LoyerOld", amount := 45, category := "Repas", isRecurring := true, recurringId := some 5 }]
                , realExpenses := [] }) ]

/-- Witness for C2: concrete update of income template 5 and expense
template 5 at pivot `2024-03` over `tlU`. -/
theorem updateTemplate_isolation_witness :
    ((∃ t ∈ (updateRecurringIncome 5 "Salaire2" 120 "2024-03" gW tlU).1.recurringIncomes,
        t.id = 5 ∧ t.description = "Salaire2" ∧ t.amount = (120 : Int)) ∧
      List.Forall₂ (fun before after => before.1 = after.1 ∧
          (keyLe "2024-03" before.1 = true → ∀ i ∈ after.2.realIncome,
              i.recurringId = some 5 → i.description = "Salaire2" ∧ i.amount = (120 : Int)) ∧
          (keyLe "2024-03" before.1 = false → after = before))
        tlU (updateRecurringIncome 5 "Salaire2" 120 "2024-03" gW tlU).2) ∧
    ((∃ t ∈ (updateRecurringExpense 5 "Salaire2" 120 "Loisirs" "2024-03" gW tlU).1.recurringExpenses,
        t.id = 5 ∧ t.description = "Salaire2" ∧ t.amount = (120 : Int) ∧ t.category = "Loisirs") ∧
      List.Forall₂ (fun before after => before.1 = after.1 ∧
          (keyLe "2024-03" before.1 = true → ∀ e ∈ after.2.plannedExpenses,
              e.recurringId = some 5 → e.description = "Salaire2" ∧ e.amount = (120 : Int) ∧
              e.category = "Loisirs") ∧
          (keyLe "2024-03" before.1 = false → after = before))
        tlU (updateRecurringExpense 5 "Salaire2" 120 "Loisirs" "2024-03" gW tlU).2) :=
  ⟨(updateTemplate_isolation 5 "Salaire2" 120 "Loisirs" "2024-03" gW tlU (by decide)).1
      (by decide) (by decide),
   (updateTemplate_isolation 5 "Salaire2" 120 "Loisirs" "2024-03" gW tlU (by decide)).2
      (by decide) (by decide)⟩

/-- Claim C3: deleting recurring template `id` at pivot `P` removes the
template from its store, removes every instance with `recurringId = id`
(all of them, via `filter`) from the appropriate list of every materialized
month `≥ P` while leaving that month's other lists alone, and leaves every
materialized month `< P` entirely unchanged (orphaned instances included). -/
theorem deleteTemplate_isolation (id : Nat) (P : MonthKey) (g : GlobalState) (tl : Timeline) :
    ((∀ t ∈ (handleDeleteRecurringIncome id P g tl).1.recurringIncomes, t.id ≠ id) ∧
     (handleDeleteRecurringIncome id P g tl).1.recurringExpenses = g.recurringExpenses ∧
     (handleDeleteRecurringIncome id P g tl).1.categories = g.categories ∧
     List.Forall₂ (fun before after => before.1 = after.1 ∧
         (keyLe P before.1 = true →
           (∀ i ∈ after.2.realIncome, i.recurringId ≠ some id) ∧
           after.2.plannedExpenses = before.2.plannedExpenses ∧
           after.2.realExpenses = before.2.realExpenses) ∧
         (keyLe P before.1 = false → after = before))
       tl (handleDeleteRecurringIncome id P g tl).2) ∧
    ((∀ t ∈ (handleDeleteRecurringExpense id P g tl).1.recurringExpenses, t.id ≠ id) ∧
     (handleDeleteRecurringExpense id P g tl).1.recurringIncomes = g.recurringIncomes ∧
     (handleDeleteRecurringExpense id P g tl).1.categories = g.categories ∧
     List.Forall₂ (fun before after => before.1 = after.1 ∧
         (keyLe P before.1 = true →
           (∀ e ∈ after.2.plannedExpenses, e.recurringId ≠ some id) ∧
           after.2.realIncome = before.2.realIncome ∧
           after.2.realExpenses = before.2.realExpenses) ∧
         (keyLe P before.1 = false → after = before))
       tl (handleDeleteRecurringExpense id P g tl).2) := by
  constructor
  · refine ⟨?_, rfl, rfl, ?_⟩
    · intro t ht
      have hb := (List.mem_filter.mp ht).2
      simpa using hb
    · unfold handleDeleteRecurringIncome mapMonths
      apply forall₂_map_self
      intro kv hkv
      by_cases hk : keyLe P kv.1 = true
      · rw [if_pos hk]
        refine ⟨rfl, fun _ => ⟨?_, rfl, rfl⟩, fun hkf => absurd (hk.symm.trans hkf) (by decide)⟩
        intro i hi
        have hb := (List.mem_filter.mp hi).2
        simpa using hb
      · rw [if_neg hk]
        exact ⟨rfl, fun hkt => absurd hkt hk, fun _ => rfl⟩
  · refine ⟨?_, rfl, rfl, ?_⟩
    · intro t ht
      have hb := (List.mem_filter.mp ht).2
      simpa using hb
    · unfold handleDeleteRecurringExpense mapMonths
      apply forall₂_map_self
      intro kv hkv
      by_cases hk : keyLe P kv.1 = true
      · rw [if_pos hk]
        refine ⟨rfl, fun _ => ⟨?_, rfl, rfl⟩, fun hkf => absurd (hk.symm.trans hkf) (by decide)⟩
        intro e he
        have hb := (List.mem_filter.mp he).2
        simpa using hb
      · rw [if_neg hk]
        exact ⟨rfl, fun hkt => absurd hkt hk, fun _ => rfl⟩

end Budget

namespace Budget

/-- A single materialized month holding dangling instances whose
`recurringId` (7) matches no template in `gW`. -/
def tlO : Timeline :=
  [("2024-03", { realIncome := [{ id := 21, description := "Orphan", amount := 10, isRecurring := true, recurringId := some 7 }]
               , plannedExpenses := [{ id := 22, description := "OrphanE", amount := 11, category := "Repas", isRecurring := true, recurringId := some 7 }]
               , realExpenses := [] })]

/-- Counterexample for C6: no template with id 7 exists in the store, yet
the update operation changes ledger state (the dangling instance in the
pivot month is rewritten) — so the operation neither fails with
`TemplateNotFound` (it signals nothing) nor leaves the ledgers unchanged. -/
theorem updateTemplate_notFound_counterexample :
    (∀ t ∈ gW.recurringIncomes, t.id ≠ 7) ∧
    (updateRecurringIncome 7 "New" 99 "2024-03" gW tlO).2 ≠ tlO :=
  ⟨by decide, by decide⟩

/-- Claim C6 amended: when no template with the given id exists in the
matching store, the update branch signals no error; the template store is
left unchanged, but the propagation loop still runs — in every materialized
month `≥ P` the first instance with matching `recurringId` (if any) still
receives the new fields, and months `< P` are unchanged. -/
theorem updateTemplate_notFound_amended (id : Nat) (d : String) (a : Int) (cat : String)
    (P : MonthKey) (g : GlobalState) (tl : Timeline) (hd : d ≠ "") :
    ((∀ t ∈ g.recurringIncomes, t.id ≠ id) →
      (updateRecurringIncome id d a P g tl).1 = g ∧
      List.Forall₂ (fun before after => before.1 = after.1 ∧
          (keyLe P before.1 = true → after.2.realIncome =
            updateFirst (fun i => i.recurringId == some id) (setIncomeFields d a) before.2.realIncome) ∧
          (keyLe P before.1 = false → after = before))
        tl (updateRecurringIncome id d a P g tl).2) ∧
    ((∀ t ∈ g.recurringExpenses, t.id ≠ id) →
      (updateRecurringExpense id d a cat P g tl).1 = g ∧
      List.Forall₂ (fun before after => before.1 = after.1 ∧
          (keyLe P before.1 = true → after.2.plannedExpenses =
            updateFirst (fun e => e.recurringId == some id) (setExpenseFields d a cat) before.2.plannedExpenses) ∧
          (keyLe P before.1 = false → after = before))
        tl (updateRecurringExpense id d a cat P g tl).2) := by
  constructor
  · intro hni
    constructor
    · have h1 : (updateRecurringIncome id d a P g tl).1 =
          { g with recurringIncomes :=
              updateFirst (fun i => i.id == id) (setIncomeFields d a) g.recurringIncomes } := by
        unfold updateRecurringIncome
        rw [if_neg hd]
      rw [h1, updateFirst_of_forall_not (fun x hx => beq_eq_false_iff_ne.mpr (hni x hx))]
    · have h2 : (updateRecurringIncome id d a P g tl).2 =
          mapMonths P (fun m => { m with realIncome := updateFirst (fun i => i.recurringId == some id) (setIncomeFields d a) m.realIncome }) tl := by
        unfold updateRecurringIncome
        rw [if_neg hd]
      rw [h2]
      unfold mapMonths
      apply forall₂_map_self
      intro kv hkv
      by_cases hk : keyLe P kv.1 = true
      · rw [if_pos hk]
        exact ⟨rfl, fun _ => rfl, fun hkf => absurd (hk.symm.trans hkf) (by decide)⟩
      · rw [if_neg hk]
        exact ⟨rfl, fun hkt => absurd hkt hk, fun _ => rfl⟩
  · intro hne
    constructor
    · have h1 : (updateRecurringExpense id d a cat P g tl).1 =
          { g with recurringExpenses :=
              updateFirst (fun e => e.id == id) (setExpenseFields d a cat) g.recurringExpenses } := by
        unfold updateRecurringExpense
        rw [if_neg hd]
      rw [h1, updateFirst_of_forall_not (fun x hx => beq_eq_false_iff_ne.mpr (hne x hx))]
    · have h2 : (updateRecurringExpense id d a cat P g tl).2 =
          mapMonths P (fun m => { m with plannedExpenses := updateFirst (fun e => e.recurringId == some id) (setExpenseFields d a cat) m.plannedExpenses }) tl := by
        unfold updateRecurringExpense
        rw [if_neg hd]
      rw [h2]
      unfold mapMonths
      apply forall₂_map_self
      intro kv hkv
      by_cases hk : keyLe P kv.1 = true
      · rw [if_pos hk]
        exact ⟨rfl, fun _ => rfl, fun hkf => absurd (hk.symm.trans hkf) (by decide)⟩
      · rw [if_neg hk]
        exact ⟨rfl, fun hkt => absurd hkt hk, fun _ => rfl⟩

/-- Witness for the amended C6 at the concrete dangling-instance state. -/
theorem updateTemplate_notFound_amended_witness :
    ((updateRecurringIncome 7 "New" 99 "2024-03" gW tlO).1 = gW ∧
      List.Forall₂ (fun before after => before.1 = after.1 ∧
          (keyLe "2024-03" before.1 = true → after.2.realIncome =
            updateFirst (fun i => i.recurringId == some 7) (setIncomeFields "New" 99) before.2.realIncome) ∧
          (keyLe "2024-03" before.1 = false → after = before))
        tlO (updateRecurringIncome 7 "New" 99 "2024-03" gW tlO).2) ∧
    ((updateRecurringExpense 7 "New" 99 "Repas" "2024-03" gW tlO).1 = gW ∧
      List.Forall₂ (fun before after => before.1 = after.1 ∧
          (keyLe "2024-03" before.1 = true → after.2.plannedExpenses =
            updateFirst (fun e => e.recurringId == some 7) (setExpenseFields "New" 99 "Repas") before.2.plannedExpenses) ∧
          (keyLe "2024-03" before.1 = false → after = before))
        tlO (updateRecurringExpense 7 "New" 99 "Repas" "2024-03" gW tlO).2) :=
  ⟨(updateTemplate_notFound_amended 7 "New" 99 "Repas" "2024-03" gW tlO (by decide)).1 (by decide),
   (updateTemplate_notFound_amended 7 "New" 99 "Repas" "2024-03" gW tlO (by decide)).2 (by decide)⟩

end Budget

namespace Budget

/-- Claim C8: for a nonempty (trimmed) proposed name, `handleAddCategory`
fails iff some existing category name matches case-insensitively; on failure
the whole state is unchanged; on success the new category is inserted and
the registry is re-sorted by name under the locale comparator `lc`
(assumed total and transitive, as `localeCompare` induces). -/
theorem addCategory_duplicate_guard (lc : String → String → Bool)
    (htot : ∀ a b, lc a b = true ∨ lc b a = true)
    (htrans : ∀ a b c, lc a b = true → lc b c = true → lc a c = true)
    (input : String) (g : GlobalState) (hne : trimStr input ≠ "") :
    ((handleAddCategory lc input g).2 = false ↔
        ∃ c ∈ g.categories, lowerStr c.name = lowerStr (trimStr input)) ∧
    ((handleAddCategory lc input g).2 = false → (handleAddCategory lc input g).1 = g) ∧
    ((handleAddCategory lc input g).2 = true →
      (handleAddCategory lc input g).1.categories.Perm
        (g.categories ++ [{ name := trimStr input, color := defaultNewColor }]) ∧
      (handleAddCategory lc input g).1.categories.Pairwise (fun a b => lc a.name b.name = true) ∧
      (handleAddCategory lc input g).1.recurringIncomes = g.recurringIncomes ∧
      (handleAddCategory lc input g).1.recurringExpenses = g.recurringExpenses) := by
  by_cases hdup : (g.categories.any (fun c => lowerStr c.name == lowerStr (trimStr input))) = true
  · have hr : handleAddCategory lc input g = (g, false) := by
      simp only [handleAddCategory]
      rw [if_neg (fun hcond => absurd (hdup.symm.trans hcond.2) (by decide))]
    rcases List.any_eq_true.mp hdup with ⟨c, hc, hbeq⟩
    refine ⟨?_, fun _ => by rw [hr], fun hsucc => absurd ((congrArg Prod.snd hr).symm.trans hsucc) (by simp)⟩
    rw [hr]
    exact iff_of_true rfl ⟨c, hc, beq_iff_eq.mp hbeq⟩
  · have hfd : (g.categories.any (fun c => lowerStr c.name == lowerStr (trimStr input))) = false := by
      revert hdup
      cases g.categories.any (fun c => lowerStr c.name == lowerStr (trimStr input)) <;> simp
    have hr : handleAddCategory lc input g =
        ({ g with categories := sortCategories lc (g.categories ++ [{ name := trimStr input, color := defaultNewColor }]) }, true) := by
      simp only [handleAddCategory]
      rw [if_pos ⟨hne, hfd⟩]
    refine ⟨?_, ?_, fun _ => ?_⟩
    · rw [hr]
      refine iff_of_false (by simp) ?_
      rintro ⟨c, hc, he⟩
      exact hdup (List.any_eq_true.mpr ⟨c, hc, beq_iff_eq.mpr he⟩)
    · intro hf
      exact absurd ((congrArg Prod.snd hr).symm.trans hf) (by simp)
    · rw [hr]
      refine ⟨sortLe_perm (catLe lc) _, ?_, rfl, rfl⟩
      exact @sortLe_pairwise Category (catLe lc) (fun a b => htot a.name b.name)
        (fun a b c => htrans a.name b.name c.name) _

/-- The registry seeded with the app's own default (accented) categories. -/
def gFr : GlobalState :=
  { categories := defaultCategories, recurringIncomes := [], recurringExpenses := [] }

/-- Witness for C8: a case-insensitive duplicate ("  repas " vs "Repas") is
rejected with the state unchanged, and the accented default categories are
matched case-insensitively too ("épargne ou investissements" against
"Épargne ou investissements", "PRÊTS" against "Prêts"). -/
theorem addCategory_duplicate_guard_witness :
    trimStr "  repas " ≠ "" ∧
    ((handleAddCategory luTrue "  repas " gW).2 = false ↔
      ∃ c ∈ gW.categories, lowerStr c.name = lowerStr (trimStr "  repas ")) ∧
    (handleAddCategory luTrue "  repas " gW).1 = gW ∧
    ((handleAddCategory luTrue "épargne ou investissements" gFr).2 = false ↔
      ∃ c ∈ gFr.categories, lowerStr c.name = lowerStr (trimStr "épargne ou investissements")) ∧
    (handleAddCategory luTrue "PRÊTS" gFr).1 = gFr :=
  ⟨by decide,
   (addCategory_duplicate_guard luTrue (fun _ _ => Or.inl rfl) (fun _ _ _ _ _ => rfl)
      "  repas " gW (by decide)).1,
   (addCategory_duplicate_guard luTrue (fun _ _ => Or.inl rfl) (fun _ _ _ _ _ => rfl)
      "  repas " gW (by decide)).2.1 (by decide),
   (addCategory_duplicate_guard luTrue (fun _ _ => Or.inl rfl) (fun _ _ _ _ _ => rfl)
      "épargne ou investissements" gFr (by decide)).1,
   (addCategory_duplicate_guard luTrue (fun _ _ => Or.inl rfl) (fun _ _ _ _ _ => rfl)
      "PRÊTS" gFr (by decide)).2.1 (by decide)⟩

/-- Claim C10: every category created through `handleAddCategory` gets the
fixed color `"#94a3b8"` (the handler takes no color argument), and the only
color mutation is `handleChangeColor`, which overwrites the color of the
named category (unique names assumed) and leaves every other category
untouched. -/
theorem addCategory_default_color :
    (∀ (lc : String → String → Bool) (input : String) (g : GlobalState),
        (handleAddCategory lc input g).2 = true →
        ({ name := trimStr input, color := "#94a3b8" } : Category) ∈
          (handleAddCategory lc input g).1.categories) ∧
    (∀ (categoryName newColor : String) (g : GlobalState),
        g.categories.countP (fun c => c.name == categoryName) ≤ 1 →
        ∀ c ∈ (handleChangeColor categoryName newColor g).categories,
          (c.name = categoryName → c.color = newColor) ∧
          (c.name ≠ categoryName → c ∈ g.categories)) := by
  constructor
  · intro lc input g hsucc
    by_cases hcond : trimStr input ≠ "" ∧
        (g.categories.any (fun c => lowerStr c.name == lowerStr (trimStr input))) = false
    · have hr : handleAddCategory lc input g =
          ({ g with categories := sortCategories lc (g.categories ++ [{ name := trimStr input, color := defaultNewColor }]) }, true) := by
        simp only [handleAddCategory]
        rw [if_pos hcond]
      rw [hr]
      have hperm := sortLe_perm (catLe lc)
        (g.categories ++ [{ name := trimStr input, color := defaultNewColor }])
      exact hperm.mem_iff.mpr (List.mem_append_right _ (List.mem_singleton.mpr rfl))
    · have hr : handleAddCategory lc input g = (g, false) := by
        simp only [handleAddCategory]
        rw [if_neg hcond]
      exact absurd ((congrArg Prod.snd hr).symm.trans hsucc) (by simp)
  · intro categoryName newColor g hcnt c hc
    have hc2 : c ∈ updateFirst (fun c => c.name == categoryName)
        (fun c => { c with color := newColor }) g.categories := by
      simpa only [handleChangeColor] using hc
    constructor
    · intro heq
      exact updateFirst_sat (Q := fun c => c.color = newColor)
        (fun x _ _ => rfl) hcnt c hc2 (beq_iff_eq.mpr heq)
    · intro hne2
      exact updateFirst_mem_of_not (p := fun x => x.name == categoryName) (f := fun x => { x with color := newColor }) (fun x => rfl) c hc2 (show (c.name == categoryName) = false from beq_eq_false_iff_ne.mpr hne2)

/-- Witness for C10: "Auto" is created with the default color, and
recoloring "Repas" only changes that category. -/
theorem addCategory_default_color_witness :
    ({ name := trimStr "Auto", color := "#94a3b8" } : Category) ∈
      (handleAddCategory luTrue "Auto" gW).1.categories ∧
    (({ name := "Repas", color := "#000000" } : Category).name = "Repas" →
      ({ name := "Repas", color := "#000000" } : Category).color = "#000000") :=
  ⟨addCategory_default_color.1 luTrue "Auto" gW (by decide),
   (addCategory_default_color.2 "Repas" "#000000" gW (by decide)
      { name := "Repas", color := "#000000" } (by decide)).1⟩

end Budget

namespace Budget

/-- Claim C9: `initializeState` consumes the four persisted blobs
independently — each of `recurringIncomes`/`recurringExpenses` is exactly its
own blob's parse result or `[]`, the categories are exactly the sorted parse
result whenever the blob is valid (even an empty list — the bilingual seed
list is NOT installed then) and the sorted seed list exactly when the blob
is absent or corrupt, and the timeline is the migrated parse result (or
empty) of its own blob, extended with a freshly seeded ledger for the
selected month when that month is not yet materialized. -/
theorem load_independence (lc : String → String → Bool) (ps : Parsers) (st : Storage)
    (sm : MonthKey) (fidI fidE : Nat → Nat) :
    (initializeState lc ps st sm fidI fidE).g.recurringIncomes =
      (loadFromStorage st.recurringIncomes ps.pIncomes).getD [] ∧
    (initializeState lc ps st sm fidI fidE).g.recurringExpenses =
      (loadFromStorage st.recurringExpenses ps.pExpenses).getD [] ∧
    (∀ cats, loadFromStorage st.categories ps.pCategories = some cats →
      (initializeState lc ps st sm fidI fidE).g.categories = sortCategories lc cats) ∧
    (loadFromStorage st.categories ps.pCategories = none →
      (initializeState lc ps st sm fidI fidE).g.categories = sortCategories lc defaultCategories) ∧
    (∀ md, loadFromStorage st.monthlyData ps.pMonthly = some md →
      (((migrateAll md).lookup sm).isSome = true →
        (initializeState lc ps st sm fidI fidE).monthly = migrateAll md) ∧
      (((migrateAll md).lookup sm).isSome = false →
        (initializeState lc ps st sm fidI fidE).monthly = migrateAll md ++
          [(sm, rawOfMonthly (createMonthDataFromRecurring fidI fidE (initializeState lc ps st sm fidI fidE).g))])) ∧
    (loadFromStorage st.monthlyData ps.pMonthly = none →
      (initializeState lc ps st sm fidI fidE).monthly =
        [(sm, rawOfMonthly (createMonthDataFromRecurring fidI fidE (initializeState lc ps st sm fidI fidE).g))]) := by
  refine ⟨rfl, rfl, ?_, ?_, ?_, ?_⟩
  · intro cats h
    simp [initializeState, h]
  · intro h
    simp [initializeState, h]
  · intro md h
    constructor
    · intro hlk
      simp [initializeState, h, hlk]
    · intro hlk
      simp [initializeState, h, hlk]
  · intro h
    simp [initializeState, h, migrateAll]

end Budget

namespace Budget

/-- Parsers for the witness: only the string `"[]"` parses, to an empty
category list. -/
def psW : Parsers :=
  { pMonthly := fun _ => none
  , pIncomes := fun _ => none
  , pExpenses := fun _ => none
  , pCategories := fun s => if s = "[]" then some [] else none }

/-- Storage for the witness: three blobs absent, a valid empty categories
blob. -/
def stW : Storage :=
  { monthlyData := none, recurringIncomes := none, recurringExpenses := none
  , categories := some "[]" }

/-- Witness for C9: with a valid empty categories blob the seed list is not
installed, and an absent timeline blob yields exactly the freshly seeded
selected month. -/
theorem load_independence_witness :
    (initializeState luTrue psW stW "2024-03" (fun n => n) (fun n => n)).g.categories =
      sortCategories luTrue [] ∧
    (initializeState luTrue psW stW "2024-03" (fun n => n) (fun n => n)).monthly =
      [("2024-03", rawOfMonthly (createMonthDataFromRecurring (fun n => n) (fun n => n)
        (initializeState luTrue psW stW "2024-03" (fun n => n) (fun n => n)).g))] :=
  ⟨(load_independence luTrue psW stW "2024-03" (fun n => n) (fun n => n)).2.2.1 [] (by decide),
   (load_independence luTrue psW stW "2024-03" (fun n => n) (fun n => n)).2.2.2.2.2 (by decide)⟩

end Budget

namespace Budget

/-- Witness for C3: deleting template 5 at pivot `2024-03` leaves the other
template store untouched (concrete instantiation of the isolation theorem). -/
theorem deleteTemplate_isolation_witness :
    (handleDeleteRecurringIncome 5 "2024-03" gW tlU).1.recurringExpenses = gW.recurringExpenses ∧
    (handleDeleteRecurringExpense 5 "2024-03" gW tlU).1.recurringIncomes = gW.recurringIncomes :=
  ⟨(deleteTemplate_isolation 5 "2024-03" gW tlU).1.2.1,
   (deleteTemplate_isolation 5 "2024-03" gW tlU).2.2.1⟩

/-- Witness for C5: deleting "Repas" while the recurring expense template
uses it is refused with the state unchanged and the `recurring` usage class
reported. -/
theorem deleteCategory_guard_witness :
    (handleDeleteCategory "Repas" gW tlU).1 = gW ∧
    UsageClass.recurring ∈ (handleDeleteCategory "Repas" gW tlU).2 :=
  ⟨(deleteCategory_guard "Repas" gW tlU).2.2.2.2.1 (by decide),
   (deleteCategory_guard "Repas" gW tlU).2.2.2.1.mpr (by decide)⟩

end Budget
